import Mathlib

/-!
Verification of the per-product reconciliation logic of the
integreatly-operator excerpt (Grafana and 3scale product reconcilers).

The Go code is shallowly embedded: every call into the Kubernetes API /
external collaborators is represented by a field of an environment record
holding that call's outcome for the pass under consideration, and each Go
function (`Reconcile`, `reconcileSMTPCredentials`, `getUserDiff`, ...) is
translated into a Lean function over that environment.  A reconciliation
pass threads the mutable product configuration (host, product version,
operator version) and records

  * a trace of the steps that actually executed, and
  * the observable effects the claims talk about (configuration-store
    writes, deployment rollouts, 3scale user API calls).

Effects that no claim mentions (creation of secrets/CRs in the cluster,
observability events) are not tracked; the control flow that surrounds
them is embedded faithfully.
-/

namespace integreatly

/-- Status phases returned by reconciliation steps
(`integreatlyv1alpha1.StatusPhase`, restricted to the values the excerpt
uses). -/
inductive StatusPhase where
  | completed
  | inProgress
  | failed
  | awaitingComponents
deriving DecidableEq, Repr

/-- Error kinds the excerpt discriminates on (`k8serr.IsNotFound`,
`k8serr.IsConflict`, the 3scale client not-found error); everything else is
`other`. -/
inductive ErrKind where
  | notFound
  | conflict
  | other
deriving DecidableEq, Repr

/-- A non-nil Go error value. -/
structure GoError where
  kind : ErrKind
  msg : String
deriving DecidableEq, Repr

/-- A Go `error` result: `Option.none` is the nil error. -/
abbrev GoErr := Option GoError

/-- `fmt.Errorf("...: %w", err)`: adds context, keeps the kind. -/
def wrapErr (pre : String) (e : GoError) : GoError :=
  { kind := e.kind, msg := pre ++ e.msg }

/-- The `(StatusPhase, error)` pair every step returns. -/
abbrev Result := StatusPhase × GoErr

/-- The successful outcome `(Completed, nil)`. -/
def goodRes : Result := (StatusPhase.completed, Option.none)

/-- The halting test of the sequencer: `err != nil || phase != Completed`. -/
def halts (r : Result) : Bool :=
  r.2.isSome || r.1 != StatusPhase.completed

theorem halts_eq_false_iff (r : Result) : halts r = false ↔ r = goodRes := by
  obtain ⟨ph, e⟩ := r
  cases e <;> cases ph <;> simp [halts, goodRes]

theorem halts_eq_true_iff (r : Result) : halts r = true ↔ r ≠ goodRes := by
  constructor
  · intro h hgood
    rw [← halts_eq_false_iff] at hgood
    simp [h] at hgood
  · intro h
    cases hh : halts r
    · exact absurd ((halts_eq_false_iff r).mp hh) h
    · rfl

theorem halts_goodRes : halts goodRes = false := by
  simp [halts, goodRes]

/-- Marker result of a step whose Go body panics (a nil-pointer
dereference) instead of returning: the program produces no
`(phase, error)` pair there and nothing later in the pass executes.  The
marker is a halting result, so the sequencer stops at the panicking step
exactly as the crashed process does; the marker value itself is never to
be read as a return value of the program. -/
def panicRes (msg : String) : Result :=
  (StatusPhase.failed, some { kind := ErrKind.other, msg := "panic: " ++ msg })

theorem panicRes_halts (msg : String) : halts (panicRes msg) = true := rfl

/-- Secret / config-map data: Go's `map[string][]byte` where a missing key
reads as the empty string. -/
abbrev SecretData := List (String × String)

/-- Read of `data[k]` (missing key gives `""`). -/
def lookupD (d : SecretData) (k : String) : String :=
  (d.lookup k).getD ""

/-- Write of `data[k] = v`. -/
def setKey (d : SecretData) (k v : String) : SecretData :=
  (k, v) :: d.filter (fun p => p.1 != k)

theorem lookupD_setKey_same (d : SecretData) (k v : String) :
    lookupD (setKey d k v) k = v := by
  simp [lookupD, setKey, List.lookup]

theorem lookup_filter_ne (d : SecretData) (k a : String) (h : a ≠ k) :
    (d.filter (fun p => p.1 != k)).lookup a = d.lookup a := by
  induction d with
  | nil => rfl
  | cons p rest ih =>
    obtain ⟨k1, v1⟩ := p
    by_cases hp : k1 = k
    · have h1 : ((k1, v1).1 != k) = false := by simp [hp]
      have h2 : (a == k1) = false := by simp [hp, h]
      simp [List.filter_cons, h1, List.lookup_cons, h2, ih]
    · have h1 : ((k1, v1).1 != k) = true := by simp [hp]
      simp [List.filter_cons, h1, List.lookup_cons, ih]

theorem lookupD_setKey_ne (d : SecretData) (k v a : String) (h : a ≠ k) :
    lookupD (setKey d k v) a = lookupD d a := by
  have hne : (a == k) = false := by simp [h]
  simp [lookupD, setKey, List.lookup, hne, lookup_filter_ne d k a h]

/-- Tags for writes to the product configuration store
(`ConfigManager.WriteConfig`). -/
inductive WriteTag where
  | host
  | productVersion
  | operatorVersion
deriving DecidableEq, Repr

/-- 3scale `UserDetails`. -/
structure UserDetails where
  id : Int
  username : String
  email : String
  role : String
deriving DecidableEq, Repr

/-- 3scale `User`. -/
structure User where
  userDetails : UserDetails
deriving DecidableEq, Repr

/-- `keycloak.KeycloakAPIUser` (the fields the excerpt reads). -/
structure KeycloakAPIUser where
  userName : String
  email : String
deriving DecidableEq, Repr

/-- Observable effects the claims are about. -/
inductive Effect where
  | configWrite (w : WriteTag)
  | rollout (deployment : String)
  | addUser (username email : String)
  | deleteUser (u : User)
  | setAdmin (u : User)
deriving DecidableEq, Repr

/-- The mutable part of a product's configuration record that the excerpt
reads and writes during a pass. -/
structure Config where
  host : String
  productVersion : String
  operatorVersion : String
deriving DecidableEq, Repr

/-- Per-product status record (`RHMIProductStatus` fields written by
`Reconcile`). -/
structure ProductStatus where
  host : String
  version : String
  operatorVersion : String
deriving DecidableEq, Repr

/-- The product status a fully completed pass writes: a mirror of the
final configuration. -/
def productFromCfg (c : Config) : ProductStatus :=
  { host := c.host, version := c.productVersion, operatorVersion := c.operatorVersion }

/-- An OpenShift route (the only field the excerpt reads). -/
structure Route where
  host : String
deriving DecidableEq, Repr

/-- `controllerutil.CreateOrUpdate` operation result: whether the object
changed. -/
inductive OpResult where
  | unchanged
  | created
  | updated
deriving DecidableEq, Repr

end integreatly

namespace seq

open integreatly

/-- Outcome of executing one step of a pass: the returned `(phase, error)`
pair, the updated threaded state, the trace entries and effects the step
emitted. -/
structure StepExec (St Tr : Type) where
  res : Result
  st : St
  tr : List Tr
  effs : List Effect

/-- Outcome of a whole pass. -/
structure Out (St Tr : Type) where
  res : Result
  st : St
  trace : List Tr
  effs : List Effect

variable {ι St Tr : Type}

/-- The phase sequencer: the early-return chain
`phase, err = step(); if err != nil || phase != Completed { return phase, err }`
repeated over the ordered step list, followed by the tail of the entry
point (the code after the last step). -/
def run (exec : St → ι → StepExec St Tr) (tail : St → Result × St × List Effect) :
    List ι → St → List Tr → List Effect → Out St Tr
  | [], st, tr, effs =>
    ⟨(tail st).1, (tail st).2.1, tr, effs ++ (tail st).2.2⟩
  | i :: rest, st, tr, effs =>
    let o := exec st i
    if halts o.res then ⟨o.res, o.st, tr ++ o.tr, effs ++ o.effs⟩
    else run exec tail rest o.st (tr ++ o.tr) (effs ++ o.effs)

/-- Concatenated trace of a list of steps. -/
def traceOf (g : ι → List Tr) : List ι → List Tr
  | [] => []
  | i :: rest => g i ++ traceOf g rest

theorem mem_traceOf (g : ι → List Tr) (t : Tr) :
    ∀ l : List ι, t ∈ traceOf g l ↔ ∃ i ∈ l, t ∈ g i
  | [] => by simp [traceOf]
  | i :: rest => by
    simp [traceOf, List.mem_append, mem_traceOf g t rest]

theorem traceOf_append (g : ι → List Tr) (l₁ l₂ : List ι) :
    traceOf g (l₁ ++ l₂) = traceOf g l₁ ++ traceOf g l₂ := by
  induction l₁ with
  | nil => simp [traceOf]
  | cons i rest ih => simp [traceOf, ih]

variable (exec : St → ι → StepExec St Tr) (tail : St → Result × St × List Effect)

theorem run_nil (st : St) (tr : List Tr) (effs : List Effect) :
    run exec tail [] st tr effs =
      ⟨(tail st).1, (tail st).2.1, tr, effs ++ (tail st).2.2⟩ := rfl

theorem run_cons_halt {i : ι} {st : St} (rest : List ι) (tr : List Tr)
    (effs : List Effect) (h : halts (exec st i).res = true) :
    run exec tail (i :: rest) st tr effs =
      ⟨(exec st i).res, (exec st i).st, tr ++ (exec st i).tr,
        effs ++ (exec st i).effs⟩ := by
  simp [run, h]

theorem run_cons_good {i : ι} {st : St} (rest : List ι) (tr : List Tr)
    (effs : List Effect) (h : halts (exec st i).res = false) :
    run exec tail (i :: rest) st tr effs =
      run exec tail rest (exec st i).st (tr ++ (exec st i).tr)
        (effs ++ (exec st i).effs) := by
  simp [run, h]

/-- Short-circuit behaviour of the sequencer: with a good prefix and a bad
step `s`, the run returns `s`'s result and the trace covers exactly the
prefix and `s`. -/
theorem run_shortCircuit (f : ι → Result) (g : ι → List Tr)
    (hres : ∀ st i, (exec st i).res = f i) (htr : ∀ st i, (exec st i).tr = g i)
    (s : ι) (post : List ι) (hs : halts (f s) = true) :
    ∀ (pre : List ι) (st0 : St) (tr0 : List Tr) (effs0 : List Effect),
      (∀ t ∈ pre, halts (f t) = false) →
      (run exec tail (pre ++ s :: post) st0 tr0 effs0).res = f s ∧
      (run exec tail (pre ++ s :: post) st0 tr0 effs0).trace =
        tr0 ++ traceOf g (pre ++ [s]) := by
  intro pre
  induction pre with
  | nil =>
    intro st0 tr0 effs0 _
    have hh : halts (exec st0 s).res = true := by rw [hres]; exact hs
    rw [List.nil_append, run_cons_halt exec tail post tr0 effs0 hh]
    constructor
    · exact hres st0 s
    · rw [htr]
      simp [traceOf]
  | cons a as ih =>
    intro st0 tr0 effs0 hpre
    have ha : halts (exec st0 a).res = false := by
      rw [hres]; exact hpre a (by simp)
    have ih2 := ih (exec st0 a).st (tr0 ++ (exec st0 a).tr) (effs0 ++ (exec st0 a).effs)
      (fun t ht => hpre t (by simp [ht]))
    rw [List.cons_append, run_cons_good exec tail _ tr0 effs0 ha]
    refine ⟨ih2.1, ?_⟩
    rw [ih2.2, htr]
    simp [traceOf, List.append_assoc]

/-- If every step in the list is good, the run reaches the tail; with a
tail that reports `(Completed, nil)`, so does the pass. -/
theorem run_all_good (f : ι → Result)
    (hres : ∀ st i, (exec st i).res = f i)
    (htail : ∀ st, (tail st).1 = goodRes) :
    ∀ (steps : List ι) (st0 : St) (tr0 : List Tr) (effs0 : List Effect),
      (∀ i ∈ steps, halts (f i) = false) →
      (run exec tail steps st0 tr0 effs0).res = goodRes := by
  intro steps
  induction steps with
  | nil =>
    intro st0 tr0 effs0 _
    rw [run_nil]
    exact htail st0
  | cons a as ih =>
    intro st0 tr0 effs0 hgood
    have ha : halts (exec st0 a).res = false := by
      rw [hres]; exact hgood a (by simp)
    rw [run_cons_good exec tail _ tr0 effs0 ha]
    exact ih _ _ _ (fun i hi => hgood i (by simp [hi]))

/-- A projection of the threaded state that no step changes is unchanged
whenever the pass does not reach its tail (i.e. does not report
`(Completed, nil)`). -/
theorem run_ne_good_proj {α : Type} (proj : St → α)
    (hkeep : ∀ st i, proj (exec st i).st = proj st)
    (htail : ∀ st, (tail st).1 = goodRes) :
    ∀ (steps : List ι) (st0 : St) (tr0 : List Tr) (effs0 : List Effect),
      (run exec tail steps st0 tr0 effs0).res ≠ goodRes →
      proj (run exec tail steps st0 tr0 effs0).st = proj st0 := by
  intro steps
  induction steps with
  | nil =>
    intro st0 tr0 effs0 hne
    rw [run_nil] at hne
    exact absurd (htail st0) hne
  | cons a as ih =>
    intro st0 tr0 effs0 hne
    cases hh : halts (exec st0 a).res
    · rw [run_cons_good exec tail _ tr0 effs0 hh] at hne ⊢
      rw [ih (exec st0 a).st _ _ hne, hkeep]
    · rw [run_cons_halt exec tail _ tr0 effs0 hh]
      exact hkeep st0 a

/-- A property the tail establishes on the state holds after any pass that
reports `(Completed, nil)`. -/
theorem run_good_post (R : St → Prop)
    (hR : ∀ st, R (tail st).2.1) :
    ∀ (steps : List ι) (st0 : St) (tr0 : List Tr) (effs0 : List Effect),
      (run exec tail steps st0 tr0 effs0).res = goodRes →
      R (run exec tail steps st0 tr0 effs0).st := by
  intro steps
  induction steps with
  | nil =>
    intro st0 tr0 effs0 _
    rw [run_nil]
    exact hR st0
  | cons a as ih =>
    intro st0 tr0 effs0 hgood
    cases hh : halts (exec st0 a).res
    · rw [run_cons_good exec tail _ tr0 effs0 hh] at hgood ⊢
      exact ih _ _ _ hgood
    · rw [run_cons_halt exec tail _ tr0 effs0 hh] at hgood
      exact absurd hgood ((halts_eq_true_iff _).mp hh)

/-- An effect no step emits and the tail does not emit either (under an
invariant preserved by the steps) never appears in a pass. -/
theorem run_effect_absent (P : St → Prop) (e : Effect)
    (hP : ∀ st i, P st → P (exec st i).st)
    (he : ∀ st i, e ∉ (exec st i).effs)
    (htailE : ∀ st, P st → e ∉ (tail st).2.2) :
    ∀ (steps : List ι) (st0 : St) (tr0 : List Tr) (effs0 : List Effect),
      P st0 → e ∉ effs0 → e ∉ (run exec tail steps st0 tr0 effs0).effs := by
  intro steps
  induction steps with
  | nil =>
    intro st0 tr0 effs0 hp h0
    rw [run_nil]
    simp only [List.mem_append]
    exact fun h => h.elim h0 (htailE st0 hp)
  | cons a as ih =>
    intro st0 tr0 effs0 hp h0
    cases hh : halts (exec st0 a).res
    · rw [run_cons_good exec tail _ tr0 effs0 hh]
      exact ih _ _ _ (hP st0 a hp)
        (by simp only [List.mem_append]; exact fun h => h.elim h0 (he st0 a))
    · rw [run_cons_halt exec tail _ tr0 effs0 hh]
      simp only [List.mem_append]
      exact fun h => h.elim h0 (he st0 a)

end seq

namespace resources

open integreatly

/-- Modelled from the spec: `resources.Reconciler.ReconcileFinalizer` is
declared outside the excerpt (pkg/resources).  Spec section 4.3: the
handler detects the deletion marker and, when present, runs the
teardown-specific step list instead of the forward install sequence;
section 8 adds that forward-install steps never execute in the same pass.
Accordingly, with the marker present the handler returns the teardown
outcome while teardown has not converged and a non-Completed
(`InProgress`) outcome once it has, so the entry point halts right after
it either way; with no marker it returns `(Completed, nil)` and the
forward sequence runs. -/
def reconcileFinalizer (marker : Bool) (teardown : Result) : Result :=
  if marker then
    if halts teardown then teardown else (StatusPhase.inProgress, Option.none)
  else goodRes

theorem reconcileFinalizer_marker_halts (teardown : Result) :
    halts (reconcileFinalizer true teardown) = true := by
  unfold reconcileFinalizer
  cases hh : halts teardown
  · simp [halts]
  · simpa

end resources

namespace grafana

open integreatly

/-- `integreatlyv1alpha1.VersionGrafana`.  The version constant lives
outside the excerpt; only (in)equality with the recorded configuration
value matters, so any fixed string is faithful. -/
def versionGrafana : String := "grafana-version"

/-- Teardown sub-steps of the Grafana finalizer closure. -/
inductive TearId where
  | removeProductNs
  | removeOperatorNs
deriving DecidableEq, Repr

/-- The ordered steps of `grafana.Reconciler.Reconcile`. -/
inductive StepId where
  | finalizer
  | ns
  | secrets
  | subscription
  | components
  | host
deriving DecidableEq, Repr

/-- Trace entries of a Grafana pass. -/
inductive TraceId where
  | step (s : StepId)
  | teardown (t : TearId)
deriving DecidableEq, Repr

/-- Environment of one Grafana reconciliation pass: the deletion marker of
the owning Installation, the initial configuration, and the outcome of
every call the pass makes into code outside the excerpt or into the
cluster. -/
structure Env where
  deletionTimestamp : Option String
  cfg : Config
  /-- `resources.RemoveNamespace` on the product namespace. -/
  removeProductNs : Result
  /-- `resources.RemoveNamespace` on the operator namespace. -/
  removeOperatorNs : Result
  /-- `resources.Reconciler.ReconcileNamespace` on the operator namespace. -/
  reconcileNs : Result
  /-- error of `controllerutil.CreateOrUpdate` on the `grafana-k8s-proxy` secret. -/
  secretsCreateErr : GoErr
  /-- `resources.Reconciler.ReconcileSubscription`. -/
  subscription : Result
  /-- error of `controllerutil.CreateOrUpdate` on the Grafana custom resource. -/
  componentsCreateErr : GoErr
  /-- `client.Get` on the `grafana-route` route: its host on success. -/
  routeGet : Except GoError String
  /-- error of `ConfigManager.WriteConfig` inside `reconcileHost`. -/
  writeHostErr : GoErr

/-- The finalizer deletion closure (`Reconcile` lines 95-107): remove the
product namespace, then the operator namespace, short-circuiting. -/
def teardownResult (env : Env) : Result :=
  let r1 := env.removeProductNs
  if halts r1 then r1
  else
    let r2 := env.removeOperatorNs
    if halts r2 then r2 else goodRes

/-- Trace of the teardown closure. -/
def teardownTrace (env : Env) : List TraceId :=
  TraceId.teardown TearId.removeProductNs ::
    (if halts env.removeProductNs then []
     else [TraceId.teardown TearId.removeOperatorNs])

/-- `grafana.Reconciler.reconcileSecrets`: create-or-update of the session
proxy secret; any error maps to `(Failed, err)`. -/
def reconcileSecrets (env : Env) : Result :=
  match env.secretsCreateErr with
  | some e => (StatusPhase.failed, some e)
  | Option.none => goodRes

/-- `grafana.Reconciler.reconcileComponents`: create-or-update of the
Grafana custom resource; any error maps to `(Failed, err)`. -/
def reconcileComponents (env : Env) : Result :=
  match env.componentsCreateErr with
  | some e => (StatusPhase.failed, some e)
  | Option.none => goodRes

/-- `grafana.Reconciler.reconcileHost`: read the Grafana route, record
`https://<host>` in the configuration and write the configuration store
(unconditionally), failing on either error. -/
def reconcileHost (env : Env) (cfg : Config) : Result × Config × List Effect :=
  match env.routeGet with
  | Except.error e =>
    ((StatusPhase.failed, some (wrapErr "failed to get route for grafana: " e)), cfg, [])
  | Except.ok h =>
    let cfg2 := { cfg with host := "https://" ++ h }
    match env.writeHostErr with
    | some e =>
      ((StatusPhase.failed, some (wrapErr "could not set grafana route: " e)), cfg2,
        [Effect.configWrite WriteTag.host])
    | Option.none => (goodRes, cfg2, [Effect.configWrite WriteTag.host])

/-- Trace entries emitted by one step. -/
def stepTrace (env : Env) : StepId → List TraceId
  | StepId.finalizer =>
    TraceId.step StepId.finalizer ::
      (if env.deletionTimestamp.isSome then teardownTrace env else [])
  | s => [TraceId.step s]

/-- Execution of one step of the Grafana pass over the threaded
(configuration, product status) state. -/
def execStep (env : Env) (st : Config × ProductStatus) :
    StepId → seq.StepExec (Config × ProductStatus) TraceId
  | StepId.finalizer =>
    ⟨resources.reconcileFinalizer env.deletionTimestamp.isSome (teardownResult env), st,
      stepTrace env StepId.finalizer, []⟩
  | StepId.ns => ⟨env.reconcileNs, st, stepTrace env StepId.ns, []⟩
  | StepId.secrets => ⟨reconcileSecrets env, st, stepTrace env StepId.secrets, []⟩
  | StepId.subscription => ⟨env.subscription, st, stepTrace env StepId.subscription, []⟩
  | StepId.components => ⟨reconcileComponents env, st, stepTrace env StepId.components, []⟩
  | StepId.host =>
    let o := reconcileHost env st.1
    ⟨o.1, (o.2.1, st.2), stepTrace env StepId.host, o.2.2⟩

/-- The `(phase, error)` pair of one step (independent of the threaded
state, see `execStep_res_g`). -/
def stepResult (env : Env) (s : StepId) : Result :=
  (execStep env (env.cfg, ProductStatus.mk "" "" "") s).res

theorem execStep_res_g (env : Env) (st : Config × ProductStatus) (s : StepId) :
    (execStep env st s).res = stepResult env s := by
  cases s
  case host =>
    show (reconcileHost env st.1).1 = (reconcileHost env env.cfg).1
    unfold reconcileHost
    cases env.routeGet <;> cases env.writeHostErr <;> rfl
  all_goals rfl

theorem execStep_tr_g (env : Env) (st : Config × ProductStatus) (s : StepId) :
    (execStep env st s).tr = stepTrace env s := by
  cases s <;> rfl

/-- The ordered step list of `grafana.Reconciler.Reconcile`. -/
def stepsList : List StepId :=
  [StepId.finalizer, StepId.ns, StepId.secrets, StepId.subscription,
   StepId.components, StepId.host]

/-- Code after the last step (`Reconcile` lines 143-154): write the
product version to the configuration store when it differs from the
recorded one, then populate the product status from the configuration. -/
def reconcileTail (st : Config × ProductStatus) :
    Result × (Config × ProductStatus) × List Effect :=
  if st.1.productVersion != versionGrafana then
    (goodRes,
      ({ st.1 with productVersion := versionGrafana },
        productFromCfg { st.1 with productVersion := versionGrafana }),
      [Effect.configWrite WriteTag.productVersion])
  else
    (goodRes, (st.1, productFromCfg st.1), [])

/-- `grafana.Reconciler.Reconcile`: one full reconciliation pass. -/
def Reconcile (env : Env) (product : ProductStatus) :
    seq.Out (Config × ProductStatus) TraceId :=
  seq.run (execStep env) reconcileTail stepsList (env.cfg, product) [] []

theorem reconcileTail_res_g (st : Config × ProductStatus) :
    (reconcileTail st).1 = goodRes := by
  unfold reconcileTail
  split <;> rfl

theorem reconcileTail_post_g (st : Config × ProductStatus) :
    (reconcileTail st).2.1.2 = productFromCfg (reconcileTail st).2.1.1 := by
  unfold reconcileTail
  split <;> rfl

theorem execStep_keeps_product_g (env : Env) (st : Config × ProductStatus) (s : StepId) :
    (execStep env st s).st.2 = st.2 := by
  cases s <;> rfl

end grafana

namespace threescale

open integreatly

/-- `integreatlyv1alpha1.Version3Scale` (outside the excerpt; only
(in)equality matters). -/
def version3Scale : String := "3scale-version"

/-- `integreatlyv1alpha1.OperatorVersion3Scale` (outside the excerpt; only
(in)equality matters). -/
def operatorVersion3Scale : String := "3scale-operator-version"

/-- `r.Config.GetProductName()` for the 3scale reconciler (outside the
excerpt; only used as a fixed key / name). -/
def productName : String := "3scale"

/-- The `adminRole` constant of the threescale package (declared outside
the excerpt; only (in)equality with a user's role matters). -/
def adminRole : String := "admin"

/-- `string(integreatlyv1alpha1.InstallationTypeWorkshop)` (outside the
excerpt; only equality with `installation.Spec.Type` matters). -/
def installationTypeWorkshop : String := "workshop"

/-- `strings.ToLower`, modelled as character-wise case folding. -/
def strLower (s : String) : String := ⟨s.data.map Char.toLower⟩

/-- `strings.HasPrefix(s, pre)`. -/
def strStarts (s pre : String) : Bool := pre.data.isPrefixOf s.data

/-- `strings.EqualFold`, modelled as simple case folding. -/
def eqFold (a b : String) : Bool := strLower a == strLower b

/-- Phase of a cloud-resource-operator custom resource
(`types.PhaseComplete` and the others). -/
inductive CROPhase where
  | complete
  | inProgress
  | failed
deriving DecidableEq, Repr

/-- Observed status of a cloud-resource custom resource: its phase and its
connection secret reference. -/
structure CRStatus where
  phase : CROPhase
  secretName : String
  secretNs : String
deriving DecidableEq, Repr

/-- A pod (name and status phase). -/
structure Pod where
  name : String
  phase : String
deriving DecidableEq, Repr

/-- The RHSSO configuration fields the 3scale reconciler reads. -/
structure RhssoConfig where
  ns : String
  realm : String
  host : String
deriving DecidableEq, Repr

/-- Teardown sub-steps of the 3scale finalizer closure. -/
inductive TearId where
  | removeProductNs
  | removeOperatorNs
  | removeOauthClient
  | deleteConsoleLink
deriving DecidableEq, Repr

/-- The ordered steps of `threescale.Reconciler.Reconcile`. -/
inductive StepId where
  | finalizer
  | nsOperator
  | nsProduct
  | restoreSecrets
  | pullSecret
  | subscription
  | smtp
  | externalDatasources
  | blobStorage
  | components
  | rhssoIntegration
  | blackboxTargets
  | openshiftUsers
  | oauthSecret
  | masterRoute
  | oauthClient
  | serviceDiscovery
  | backupSecrets
  | routeEditRole
  | alerts
  | consoleLink
deriving DecidableEq, Repr

/-- Trace entries of a 3scale pass. -/
inductive TraceId where
  | step (s : StepId)
  | teardown (t : TearId)
deriving DecidableEq, Repr

/-- Environment of one 3scale reconciliation pass: the deletion marker,
the initial configuration, and the outcome of every call the pass makes
into code outside the excerpt or into the cluster. -/
structure Env where
  deletionTimestamp : Option String
  cfg : Config
  /-- teardown: `resources.RemoveNamespace` on the product namespace. -/
  removeProductNs : Result
  /-- teardown: `resources.RemoveNamespace` on the operator namespace. -/
  removeOperatorNs : Result
  /-- teardown: `resources.RemoveOauthClient`. -/
  removeOauthClientErr : GoErr
  /-- teardown: `client.Delete` on the 3scale console link. -/
  deleteConsoleLinkErr : GoErr
  /-- `ReconcileNamespace` on the operator namespace. -/
  nsOperator : Result
  /-- `ReconcileNamespace` on the product namespace. -/
  nsProduct : Result
  /-- `resources.CopySecret` of `system-seed` from the install namespace. -/
  restoreSeedErr : GoErr
  /-- `resources.CopySecret` of `system-master-apicast` from the install namespace. -/
  restoreMasterErr : GoErr
  /-- `resources.CopyPullSecretToNameSpace`. -/
  pullSecretErr : GoErr
  /-- `ReconcileSubscription`. -/
  subscription : Result
  /-- `client.Get` of the incoming SMTP credentials secret. -/
  smtpCredSec : Except GoError SecretData
  /-- current data of the `system-smtp` secret. -/
  systemSmtpData : SecretData
  /-- error of `CreateOrUpdate` on the `system-smtp` secret. -/
  smtpCreateErr : GoErr
  /-- `croUtil.ReconcileRedis` for the backend redis. -/
  backendRedisReq : Except GoError CRStatus
  /-- `croUtil.ReconcileRedis` for the system redis. -/
  systemRedisReq : Except GoError CRStatus
  /-- `croUtil.ReconcilePostgres`. -/
  postgresReq : Except GoError CRStatus
  /-- `resources.ReconcileRedisAlerts` for the backend redis. -/
  backendAlerts : Result
  /-- `resources.CreateRedisCpuUsageAlerts`. -/
  cpuAlertsErr : GoErr
  /-- `client.Get` of the backend redis connection secret. -/
  backendCredGet : Except GoError SecretData
  /-- error of `CreateOrUpdate` on the `backend-redis` secret. -/
  backendSecretCreateErr : GoErr
  /-- `resources.ReconcileRedisAlerts` for the system redis. -/
  systemAlerts : Result
  /-- `client.Get` of the system redis connection secret. -/
  systemCredGet : Except GoError SecretData
  /-- error of `CreateOrUpdate` on the `system-redis` secret. -/
  systemSecretCreateErr : GoErr
  /-- `resources.ReconcilePostgresAlerts`. -/
  postgresAlerts : Result
  /-- `client.Get` of the postgres credential secret. -/
  postgresCredGet : Except GoError SecretData
  /-- error of `CreateOrUpdate` on the `system-database` secret. -/
  postgresSecretCreateErr : GoErr
  /-- `croUtil.ReconcileBlobStorage`. -/
  blobReq : Except GoError CRStatus
  /-- `client.Get` of the blob storage custom resource (components step). -/
  fssBlobGet : Except GoError CRStatus
  /-- `client.Get` of the blob storage connection secret. -/
  fssCredGet : Except GoError SecretData
  /-- error of `CreateOrUpdate` on the `s3-credentials` secret. -/
  s3CreateErr : GoErr
  /-- error of `CreateOrUpdate` on the APIManager custom resource. -/
  apimCreateErr : GoErr
  /-- `apim.Status.Deployments.Starting`. -/
  deployStarting : List String
  /-- `apim.Status.Deployments.Stopped`. -/
  deployStopped : List String
  /-- `apim.Status.Deployments.Ready`. -/
  deployReady : List String
  /-- `client.List` of routes labelled `system-provider`. -/
  providerRoutes : Except GoError (List Route)
  /-- error of `ConfigManager.WriteConfig` inside `reconcileComponents`. -/
  componentsWriteErr : GoErr
  /-- `client.List` of all routes in the product namespace (`routesExist`). -/
  nsRoutes : Except GoError (List Route)
  /-- `client.List` of `system-sidekiq` pods (`resyncRoutes`). -/
  sidekiqPods : List Pod
  /-- `resources.ExecuteRemoteCommand`: (error, stdout, stderr). -/
  execResult : GoErr × String × String
  /-- `ConfigManager.ReadRHSSO`. -/
  rhssoCfg : Except GoError RhssoConfig
  /-- error of `CreateOrUpdate` on the 3scale keycloak client. -/
  kcClientCreateErr : GoErr
  /-- `client.Get` of the oauth clients secret. -/
  oauthSecretGet : Except GoError SecretData
  /-- `client.Get` of the `system-seed` secret. -/
  systemSeedGet : Except GoError SecretData
  /-- `tsClient.GetAuthenticationProviderByName`. -/
  getAuthProviderErr : GoErr
  /-- `tsClient.AddAuthenticationProvider`: (error, status code). -/
  addAuthProviderResp : GoErr × Nat
  /-- `ConfigManager.ReadMonitoring`. -/
  monCfgErr : GoErr
  /-- `monitoring.CreateBlackboxTarget` for the admin UI. -/
  bbAdminErr : GoErr
  /-- `client.List` of routes labelled `system-developer`. -/
  developerRoutes : Except GoError (List Route)
  /-- `monitoring.CreateBlackboxTarget` for the developer console. -/
  bbDevErr : GoErr
  /-- `client.List` of routes labelled `system-master` inside
  `reconcileBlackboxTargets` (part_001 line 1142). -/
  bbMasterRoutes : Except GoError (List Route)
  /-- `monitoring.CreateBlackboxTarget` for the master console. -/
  bbMasterErr : GoErr
  /-- `client.List` of routes labelled `system-master` at the oauth-client
  step of `Reconcile` (part_001 line 261): a cluster read distinct from
  (and later than) the one inside `reconcileBlackboxTargets`. -/
  masterRoutes : Except GoError (List Route)
  /-- `rhsso.GetKeycloakUsers`. -/
  kcUsers : Except GoError (List KeycloakAPIUser)
  /-- `tsClient.GetUsers` (first read). -/
  tsUsers : Except GoError (List User)
  /-- `tsClient.AddUser` per added user: (error, status code). -/
  addUserResp : KeycloakAPIUser → GoErr × Nat
  /-- `tsClient.DeleteUser` per deleted user: (error, status code). -/
  deleteUserResp : User → GoErr × Nat
  /-- error of `CreateOrUpdate` on each KeycloakUser custom resource. -/
  kcUserUpdateErr : KeycloakAPIUser → GoErr
  /-- `client.Get` of the `dedicated-admins` group (its user names). -/
  adminGroup : Except GoError (List String)
  /-- `tsClient.GetUsers` (second read). -/
  tsUsers2 : Except GoError (List User)
  /-- `installation.Spec.Type`. -/
  installType : String
  /-- `tsClient.SetUserAsAdmin` per user: (error, status code). -/
  setAdminResp : User → GoErr × Nat
  /-- `ReconcileOauthClient`. -/
  oauthClientRec : Result
  /-- error of `CreateOrUpdate` on the `system` config map. -/
  systemCMErr : GoErr
  /-- operation result of `CreateOrUpdate` on the `system` config map. -/
  systemCMStatus : OpResult
  /-- `RolloutDeployment("system-app")` in `reconcileServiceDiscovery`. -/
  rolloutAppErr : GoErr
  /-- `RolloutDeployment("system-sidekiq")` in `reconcileServiceDiscovery`. -/
  rolloutSidekiqErr : GoErr
  /-- `resources.CopySecret` of `system-seed` to the install namespace. -/
  backupSeedErr : GoErr
  /-- `resources.CopySecret` of `system-master-apicast` to the install namespace. -/
  backupMasterErr : GoErr
  /-- error of `CreateOrUpdate` on the `edit-3scale-routes` role. -/
  roleCreateErr : GoErr
  /-- error of `CreateOrUpdate` on the role binding. -/
  roleBindingCreateErr : GoErr
  /-- `alertsReconciler.ReconcileAlerts`. -/
  alerts : Result
  /-- error of `CreateOrUpdate` on the 3scale console link. -/
  consoleLinkErr : GoErr

/-- `threescale.Reconciler.deleteConsoleLink`: delete tolerating
not-found. -/
def deleteConsoleLink (env : Env) : Result :=
  match env.deleteConsoleLinkErr with
  | some e =>
    if e.kind != ErrKind.notFound then
      (StatusPhase.failed, some (wrapErr "error removing 3scale console link: " e))
    else goodRes
  | Option.none => goodRes

/-- The finalizer deletion closure (`Reconcile` lines 151-172): remove the
product and operator namespaces, the OAuth client and the console link,
short-circuiting. -/
def teardownResult (env : Env) : Result :=
  let r1 := env.removeProductNs
  if halts r1 then r1
  else
    let r2 := env.removeOperatorNs
    if halts r2 then r2
    else
      match env.removeOauthClientErr with
      | some e => (StatusPhase.failed, some e)
      | Option.none =>
        let r4 := deleteConsoleLink env
        if halts r4 then r4 else goodRes

/-- Trace of the teardown closure. -/
def teardownTrace (env : Env) : List TraceId :=
  TraceId.teardown TearId.removeProductNs ::
    (if halts env.removeProductNs then []
     else TraceId.teardown TearId.removeOperatorNs ::
       (if halts env.removeOperatorNs then []
        else TraceId.teardown TearId.removeOauthClient ::
          (match env.removeOauthClientErr with
           | some _ => []
           | Option.none => [TraceId.teardown TearId.deleteConsoleLink])))

/-- The `for` loop of `restoreSystemSecrets`: a copy error that is neither
not-found nor conflict fails the step. -/
def restoreSecretsLoop : List GoErr → Result
  | [] => goodRes
  | e :: rest =>
    match e with
    | some err =>
      if err.kind != ErrKind.notFound && err.kind != ErrKind.conflict then
        (StatusPhase.failed, some err)
      else restoreSecretsLoop rest
    | Option.none => restoreSecretsLoop rest

/-- `threescale.Reconciler.restoreSystemSecrets`. -/
def restoreSystemSecrets (env : Env) : Result :=
  restoreSecretsLoop [env.restoreSeedErr, env.restoreMasterErr]

/-- The `for` loop of `backupSystemSecrets`: any copy error fails the
step. -/
def backupSecretsLoop : List GoErr → Result
  | [] => goodRes
  | e :: rest =>
    match e with
    | some err => (StatusPhase.failed, some err)
    | Option.none => backupSecretsLoop rest

/-- `threescale.Reconciler.backupSystemSecrets`. -/
def backupSystemSecrets (env : Env) : Result :=
  backupSecretsLoop [env.backupSeedErr, env.backupMasterErr]

/-- `resources.CopyPullSecretToNameSpace` call site in `Reconcile`: an
error maps to `(Failed, err)`. -/
def pullSecretRes (env : Env) : Result :=
  match env.pullSecretErr with
  | some e => (StatusPhase.failed, some e)
  | Option.none => goodRes

/-- One field block of `reconcileSMTPCredentials`: compare the incoming
credential field with the stored field and, when they differ, store the
incoming value and set the updated flag. -/
def syncField (cred : SecretData) (credKey smtpKey : String) :
    SecretData × Bool → SecretData × Bool
  | (d, u) =>
    if lookupD cred credKey != lookupD d smtpKey then
      (setKey d smtpKey (lookupD cred credKey), true)
    else (d, u)

/-- The incoming SMTP credentials data: a failure to read the secret is
only logged, and the data then reads as empty. -/
def smtpCredData (env : Env) : SecretData :=
  match env.smtpCredSec with
  | Except.ok d => d
  | Except.error _ => []

/-- `threescale.Reconciler.reconcileSMTPCredentials`: returns the step
result, the resulting `system-smtp` data, and the rollout effects. -/
def reconcileSMTPCredentials (env : Env) : Result × SecretData × List Effect :=
  let cred := smtpCredData env
  let s1 := syncField cred "host" "address" (env.systemSmtpData, false)
  let s2 := syncField cred "authentication" "authentication" s1
  let s3 := syncField cred "domain" "domain" s2
  let s4 := syncField cred "openssl.verify.mode" "openssl.verify.mode" s3
  let s5 := syncField cred "password" "password" s4
  let s6 := syncField cred "port" "port" s5
  let s7 := syncField cred "username" "username" s6
  let effs := if s7.2 then
      [Effect.rollout "system-app", Effect.rollout "system-sidekiq"]
    else []
  match env.smtpCreateErr with
  | some e =>
    ((StatusPhase.failed, some (wrapErr "failed to create or update 3scale smtp secret: " e)),
      s7.1, effs)
  | Option.none => (goodRes, s7.1, effs)

/-- `threescale.Reconciler.reconcileBlobStorage`. -/
def reconcileBlobStorage (env : Env) : Result :=
  match env.blobReq with
  | Except.error e =>
    (StatusPhase.failed, some (wrapErr "failed to reconcile blob storage request: " e))
  | Except.ok blobStorage =>
    if blobStorage.phase != CROPhase.complete then
      (StatusPhase.awaitingComponents, Option.none)
    else goodRes

/-- `threescale.Reconciler.reconcileExternalDatasources`. -/
def reconcileExternalDatasources (env : Env) : Result :=
  match env.backendRedisReq with
  | Except.error e =>
    (StatusPhase.failed, some (wrapErr "failed to reconcile backend redis request: " e))
  | Except.ok backendRedis =>
  match env.systemRedisReq with
  | Except.error e =>
    (StatusPhase.failed, some (wrapErr "failed to reconcile system redis request: " e))
  | Except.ok systemRedis =>
  match env.postgresReq with
  | Except.error e =>
    (StatusPhase.failed, some (wrapErr "failed to reconcile postgres request: " e))
  | Except.ok _ =>
  match env.backendAlerts with
  | (_, some e) =>
    (StatusPhase.failed, some (wrapErr "failed to reconcile redis alerts: " e))
  | (ph1, Option.none) =>
  if ph1 != StatusPhase.completed then (ph1, Option.none)
  else
  match env.cpuAlertsErr with
  | some e =>
    (StatusPhase.failed, some (wrapErr "failed to create backend redis cpu usage alerts: " e))
  | Option.none =>
  if backendRedis.phase != CROPhase.complete then
    (StatusPhase.awaitingComponents, Option.none)
  else
  match env.backendCredGet with
  | Except.error e =>
    (StatusPhase.failed, some (wrapErr "failed to get backend redis credential secret: " e))
  | Except.ok _ =>
  match env.backendSecretCreateErr with
  | some e =>
    (StatusPhase.failed, some (wrapErr "failed to create or update backend redis connection secret: " e))
  | Option.none =>
  match env.systemAlerts with
  | (_, some e) =>
    (StatusPhase.failed, some (wrapErr "failed to reconcile redis alerts: " e))
  | (ph2, Option.none) =>
  if ph2 != StatusPhase.completed then (ph2, Option.none)
  else
  if systemRedis.phase != CROPhase.complete then
    (StatusPhase.awaitingComponents, Option.none)
  else
  match env.systemCredGet with
  | Except.error e =>
    (StatusPhase.failed, some (wrapErr "failed to get system redis credential secret: " e))
  | Except.ok _ =>
  match env.systemSecretCreateErr with
  | some e =>
    (StatusPhase.failed, some (wrapErr "failed to create or update system redis connection secret: " e))
  | Option.none =>
  match env.postgresAlerts with
  | (_, some e) =>
    (StatusPhase.failed, some (wrapErr "failed to reconcile postgres alerts: " e))
  | (ph3, Option.none) =>
  if ph3 != StatusPhase.completed then (ph3, Option.none)
  else
  match env.postgresCredGet with
  | Except.error e =>
    (StatusPhase.failed, some (wrapErr "failed to get postgres credential secret: " e))
  | Except.ok _ =>
  match env.postgresSecretCreateErr with
  | some e =>
    (StatusPhase.failed, some (wrapErr "failed to create or update postgres connection secret: " e))
  | Option.none => goodRes

/-- `threescale.Reconciler.getThreescaleRoute` over an observed route
list: first route passing the filter (default: any), nil when the list is
empty. -/
def getThreescaleRoute (listRes : Except GoError (List Route))
    (filterFn : Option (Route → Bool)) : Except GoError (Option Route) :=
  let f := filterFn.getD (fun _ => true)
  match listRes with
  | Except.error e => Except.error e
  | Except.ok routes =>
    if routes.isEmpty then Except.ok Option.none
    else Except.ok (routes.find? f)

/-- `threescale.Reconciler.routesExist`: at least 6 routes in the product
namespace. -/
def routesExist (env : Env) : Except GoError Bool :=
  match env.nsRoutes with
  | Except.error e => Except.error e
  | Except.ok routes => Except.ok (decide (routes.length ≥ 6))

/-- `threescale.Reconciler.resyncRoutes`.  Note that both failure branches
return `(Failed, nil)`. -/
def resyncRoutes (env : Env) : Result :=
  match env.sidekiqPods.find? (fun p => p.phase == "Running") with
  | Option.none => (StatusPhase.inProgress, Option.none)
  | some _ =>
    match env.execResult with
    | (some _, _, _) => (StatusPhase.failed, Option.none)
    | (Option.none, _, stderr) =>
      if stderr != "" then (StatusPhase.failed, Option.none)
      else (StatusPhase.inProgress, Option.none)

/-- `threescale.Reconciler.getBlobStorageFileStorageSpec` (the data of the
created `s3-credentials` secret is not tracked; its control flow is). -/
def getBlobStorageFileStorageSpec (env : Env) : Except GoError Unit :=
  match env.fssBlobGet with
  | Except.error e =>
    Except.error (wrapErr "failed to get blob storage custom resource: " e)
  | Except.ok _ =>
  match env.fssCredGet with
  | Except.error e =>
    Except.error (wrapErr "failed to get blob storage connection secret: " e)
  | Except.ok _ =>
  match env.s3CreateErr with
  | some e =>
    Except.error (wrapErr "failed to create or update blob storage aws credentials secret: " e)
  | Option.none => Except.ok ()

/-- The tail of `reconcileComponents` once deployments are ready and the
host (if any) has been recorded: check the expected routes and resync them
when missing. -/
def componentsRouteCheck (env : Env) (cfg : Config) (effs : List Effect) :
    Result × Config × List Effect :=
  match routesExist env with
  | Except.error e => ((StatusPhase.failed, some e), cfg, effs)
  | Except.ok exist =>
    if exist then (goodRes, cfg, effs)
    else (resyncRoutes env, cfg, effs)

/-- `threescale.Reconciler.reconcileComponents`: create-or-update the
APIManager; once its deployments are ready, record the admin host (an
unconditional configuration-store write when the route is found) and
check the zync routes. -/
def reconcileComponents (env : Env) (cfg : Config) : Result × Config × List Effect :=
  match getBlobStorageFileStorageSpec env with
  | Except.error e => ((StatusPhase.failed, some e), cfg, [])
  | Except.ok _ =>
  match env.apimCreateErr with
  | some e => ((StatusPhase.failed, some e), cfg, [])
  | Option.none =>
  if env.deployStarting.isEmpty && env.deployStopped.isEmpty && !env.deployReady.isEmpty then
    match getThreescaleRoute env.providerRoutes
        (some (fun r => strStarts r.host "3scale-admin.")) with
    | Except.error e => ((StatusPhase.failed, some e), cfg, [])
    | Except.ok (some route) =>
      match env.componentsWriteErr with
      | some e =>
        ((StatusPhase.failed, some e), { cfg with host := "https://" ++ route.host },
          [Effect.configWrite WriteTag.host])
      | Option.none =>
        componentsRouteCheck env { cfg with host := "https://" ++ route.host }
          [Effect.configWrite WriteTag.host]
    | Except.ok Option.none => componentsRouteCheck env cfg []
  else ((StatusPhase.inProgress, Option.none), cfg, [])

/-- `threescale.Reconciler.getOauthClientSecret`. -/
def getOauthClientSecret (env : Env) : Except GoError String :=
  match env.oauthSecretGet with
  | Except.error e => Except.error (wrapErr "could not find oauth clients secret: " e)
  | Except.ok data =>
    match data.lookup productName with
    | some v => Except.ok v
    | Option.none =>
      Except.error { kind := ErrKind.other, msg := "could not find key in oauth clients secret" }

/-- `threescale.Reconciler.GetAdminToken`. -/
def getAdminToken (env : Env) : Except GoError String :=
  match env.systemSeedGet with
  | Except.error e => Except.error e
  | Except.ok d => Except.ok (lookupD d "ADMIN_ACCESS_TOKEN")

/-- `threescale.Reconciler.reconcileRHSSOIntegration`. -/
def reconcileRHSSOIntegration (env : Env) : Result :=
  match env.rhssoCfg with
  | Except.error e => (StatusPhase.failed, some e)
  | Except.ok rhssoConf =>
  if rhssoConf.ns == "" || rhssoConf.realm == "" then
    (StatusPhase.inProgress, Option.none)
  else
  match getOauthClientSecret env with
  | Except.error e => (StatusPhase.failed, some e)
  | Except.ok _ =>
  match env.kcClientCreateErr with
  | some e =>
    (StatusPhase.failed, some (wrapErr "could not create or update 3scale keycloak client: " e))
  | Option.none =>
  match getAdminToken env with
  | Except.error e => (StatusPhase.inProgress, some e)
  | Except.ok _ =>
  match env.getAuthProviderErr with
  | some e =>
    if e.kind != ErrKind.notFound then (StatusPhase.inProgress, some e)
    else
      match env.addAuthProviderResp with
      | (some e2, _) => (StatusPhase.inProgress, some e2)
      | (Option.none, code) =>
        if code != 201 then (StatusPhase.inProgress, Option.none)
        else goodRes
  | Option.none => goodRes

/-- `threescale.Reconciler.reconcileBlackboxTargets`.  When the
developer or master route lookup returns a nil route with a nil error
(empty list or no filter match), the Go code dereferences the nil route
while building the target URL (`"https://" + route.Spec.Host`, part_001
lines 1134 and 1147) and panics; those branches yield the halting
`panicRes` marker, so the pass stops there like the crashed process. -/
def reconcileBlackboxTargets (env : Env) : Result :=
  match env.monCfgErr with
  | some e => (StatusPhase.inProgress, some (wrapErr "error reading monitoring config: " e))
  | Option.none =>
  match env.bbAdminErr with
  | some e =>
    (StatusPhase.inProgress, some (wrapErr "error creating threescale blackbox target: " e))
  | Option.none =>
  match getThreescaleRoute env.developerRoutes
      (some (fun r => strStarts r.host "3scale.")) with
  | Except.error e =>
    (StatusPhase.inProgress, some (wrapErr "error getting threescale system-developer route: " e))
  | Except.ok Option.none =>
    panicRes "invalid memory address or nil pointer dereference"
  | Except.ok (some _) =>
  match env.bbDevErr with
  | some e =>
    (StatusPhase.inProgress,
      some (wrapErr "error creating threescale blackbox target (system-developer): " e))
  | Option.none =>
  match getThreescaleRoute env.bbMasterRoutes Option.none with
  | Except.error e =>
    (StatusPhase.inProgress, some (wrapErr "error getting threescale system-master route: " e))
  | Except.ok Option.none =>
    panicRes "invalid memory address or nil pointer dereference"
  | Except.ok (some _) =>
  match env.bbMasterErr with
  | some e =>
    (StatusPhase.inProgress,
      some (wrapErr "error creating threescale blackbox target (system-master): " e))
  | Option.none => goodRes

/-- `threescale.kcContainsTs`. -/
def kcContainsTs (kcUsers : List KeycloakAPIUser) (tsUser : User) : Bool :=
  kcUsers.any (fun kcu => eqFold kcu.userName tsUser.userDetails.username)

/-- `threescale.tsContainsKc`. -/
def tsContainsKc (tsUsers : List User) (kcUser : KeycloakAPIUser) : Bool :=
  tsUsers.any (fun tsu => eqFold tsu.userDetails.username kcUser.userName)

/-- The `added` append loop of `getUserDiff`. -/
def addedLoop (tsUsers : List User) (acc : List KeycloakAPIUser) :
    List KeycloakAPIUser → List KeycloakAPIUser
  | [] => acc
  | kcUser :: rest =>
    if !tsContainsKc tsUsers kcUser then addedLoop tsUsers (acc ++ [kcUser]) rest
    else addedLoop tsUsers acc rest

/-- The `deleted` append loop of `getUserDiff`. -/
def deletedLoop (kcUsers : List KeycloakAPIUser) (acc : List User) :
    List User → List User
  | [] => acc
  | tsUser :: rest =>
    if !kcContainsTs kcUsers tsUser then deletedLoop kcUsers (acc ++ [tsUser]) rest
    else deletedLoop kcUsers acc rest

/-- `threescale.Reconciler.getUserDiff`. -/
def getUserDiff (kcUsers : List KeycloakAPIUser) (tsUsers : List User) :
    List KeycloakAPIUser × List User :=
  (addedLoop tsUsers [] kcUsers, deletedLoop kcUsers [] tsUsers)

/-- `threescale.userIsOpenshiftAdmin`. -/
def userIsOpenshiftAdmin (tsUser : User) (adminGroup : List String) : Bool :=
  adminGroup.any (fun userName => eqFold tsUser.userDetails.username userName)

/-- The `AddUser` loop of `reconcileOpenshiftUsers`: `some e` aborts the
step with `(InProgress, e)`. -/
def addUsersLoop (resp : KeycloakAPIUser → GoErr × Nat) :
    List KeycloakAPIUser → Option GoErr × List Effect
  | [] => (Option.none, [])
  | kcUser :: rest =>
    let eff := Effect.addUser (strLower kcUser.userName) (strLower kcUser.email)
    let r := resp kcUser
    if r.1.isSome || r.2 != 201 then (some r.1, [eff])
    else
      let o := addUsersLoop resp rest
      (o.1, eff :: o.2)

/-- The `DeleteUser` loop of `reconcileOpenshiftUsers`: skips the system
admin user; `some e` aborts the step with `(InProgress, e)`. -/
def deleteUsersLoop (admin : String) (resp : User → GoErr × Nat) :
    List User → Option GoErr × List Effect
  | [] => (Option.none, [])
  | tsUser :: rest =>
    if tsUser.userDetails.username != admin then
      let eff := Effect.deleteUser tsUser
      let r := resp tsUser
      if r.1.isSome || r.2 != 200 then (some r.1, [eff])
      else
        let o := deleteUsersLoop admin resp rest
        (o.1, eff :: o.2)
    else deleteUsersLoop admin resp rest

/-- The KeycloakUser attribute update loop of `reconcileOpenshiftUsers`. -/
def kcuUpdateLoop (upd : KeycloakAPIUser → GoErr) :
    List KeycloakAPIUser → Option GoError
  | [] => Option.none
  | u :: rest =>
    match upd u with
    | some e => some (wrapErr "failed to update keycloak user cr with attribute: " e)
    | Option.none => kcuUpdateLoop upd rest

/-- The loop of `threescale.syncOpenshiftAdminMembership`: skip the system
admin; promote OpenShift admins (or, in workshop mode, everyone) who are
not yet 3scale admins, aborting on a failed call.  Returns the error value
the Go function returns and the `SetUserAsAdmin` calls made. -/
def syncLoop (systemAdminUsername : String) (isWorkshop : Bool)
    (adminGroup : List String) (resp : User → GoErr × Nat) :
    List User → GoErr × List Effect
  | [] => (Option.none, [])
  | tsUser :: rest =>
    if tsUser.userDetails.username == systemAdminUsername then
      syncLoop systemAdminUsername isWorkshop adminGroup resp rest
    else if (userIsOpenshiftAdmin tsUser adminGroup || isWorkshop) &&
        tsUser.userDetails.role != adminRole then
      let r := resp tsUser
      if r.1.isSome || r.2 != 200 then (r.1, [Effect.setAdmin tsUser])
      else
        let o := syncLoop systemAdminUsername isWorkshop adminGroup resp rest
        (o.1, Effect.setAdmin tsUser :: o.2)
    else syncLoop systemAdminUsername isWorkshop adminGroup resp rest

/-- `threescale.syncOpenshiftAdminMembership`. -/
def syncOpenshiftAdminMembership (adminGroup : List String)
    (newTsUsers : List User) (systemAdminUsername : String) (isWorkshop : Bool)
    (resp : User → GoErr × Nat) : GoErr × List Effect :=
  syncLoop systemAdminUsername isWorkshop adminGroup resp newTsUsers

/-- The `ADMIN_USER` of the `system-seed` secret as the pass observes it
(empty when the secret read fails; no user calls are made then). -/
def adminUserName (env : Env) : String :=
  match env.systemSeedGet with
  | Except.ok d => lookupD d "ADMIN_USER"
  | Except.error _ => ""

/-- Tail of `reconcileOpenshiftUsers` from the `dedicated-admins` group
read on: second user read and admin membership sync. -/
def usersSyncPart (env : Env) (grp : List String) (admin : String)
    (effs : List Effect) : Result × List Effect :=
  match env.tsUsers2 with
  | Except.error e => ((StatusPhase.inProgress, some e), effs)
  | Except.ok newTs =>
    let isWorkshop := env.installType == installationTypeWorkshop
    let s := syncOpenshiftAdminMembership grp newTs admin isWorkshop env.setAdminResp
    match s.1 with
    | some e => ((StatusPhase.inProgress, some e), effs ++ s.2)
    | Option.none => (goodRes, effs ++ s.2)

/-- `threescale.Reconciler.reconcileOpenshiftUsers`. -/
def reconcileOpenshiftUsers (env : Env) : Result × List Effect :=
  match env.rhssoCfg with
  | Except.error e => ((StatusPhase.failed, some e), [])
  | Except.ok _ =>
  match getAdminToken env with
  | Except.error e => ((StatusPhase.failed, some e), [])
  | Except.ok _ =>
  match env.systemSeedGet with
  | Except.error e => ((StatusPhase.inProgress, some e), [])
  | Except.ok seed =>
  match env.kcUsers with
  | Except.error e => ((StatusPhase.failed, some e), [])
  | Except.ok kcu =>
  match env.tsUsers with
  | Except.error e => ((StatusPhase.inProgress, some e), [])
  | Except.ok tsu =>
  let systemAdminUsername := lookupD seed "ADMIN_USER"
  let diff := getUserDiff kcu tsu
  let addOut := addUsersLoop env.addUserResp diff.1
  match addOut.1 with
  | some e => ((StatusPhase.inProgress, e), addOut.2)
  | Option.none =>
  let delOut := deleteUsersLoop systemAdminUsername env.deleteUserResp diff.2
  match delOut.1 with
  | some e => ((StatusPhase.inProgress, e), addOut.2 ++ delOut.2)
  | Option.none =>
  match kcuUpdateLoop env.kcUserUpdateErr kcu with
  | some e => ((StatusPhase.inProgress, some e), addOut.2 ++ delOut.2)
  | Option.none =>
  match env.adminGroup with
  | Except.error e =>
    if e.kind != ErrKind.notFound then
      ((StatusPhase.inProgress, some e), addOut.2 ++ delOut.2)
    else usersSyncPart env [] systemAdminUsername (addOut.2 ++ delOut.2)
  | Except.ok grp => usersSyncPart env grp systemAdminUsername (addOut.2 ++ delOut.2)

/-- `getOauthClientSecret` call site in `Reconcile` (line 255): an error
maps to `(Failed, err)`. -/
def oauthSecretRes (env : Env) : Result :=
  match getOauthClientSecret env with
  | Except.error e => (StatusPhase.failed, some e)
  | Except.ok _ => goodRes

/-- `getThreescaleRoute("system-master")` call site in `Reconcile` (lines
261-264): an error or a nil route maps to `(Failed, err)` - in the
nil-route case with a nil error. -/
def masterRouteRes (env : Env) : Result :=
  match getThreescaleRoute env.masterRoutes Option.none with
  | Except.error e => (StatusPhase.failed, some e)
  | Except.ok r =>
    if r.isNone then (StatusPhase.failed, Option.none) else goodRes

/-- `threescale.Reconciler.reconcileServiceDiscovery`: write the product
and operator versions to the configuration store when they differ from
the recorded values, then create-or-update the `system` config map and
roll out the system deployments when it changed. -/
def reconcileServiceDiscovery (env : Env) (cfg : Config) :
    Result × Config × List Effect :=
  let p1 := if cfg.productVersion != version3Scale then
      ({ cfg with productVersion := version3Scale },
        [Effect.configWrite WriteTag.productVersion])
    else (cfg, [])
  let p2 := if p1.1.operatorVersion != operatorVersion3Scale then
      ({ p1.1 with operatorVersion := operatorVersion3Scale },
        p1.2 ++ [Effect.configWrite WriteTag.operatorVersion])
    else p1
  match getOauthClientSecret env with
  | Except.error e => ((StatusPhase.inProgress, some e), p2.1, p2.2)
  | Except.ok _ =>
  match env.systemCMErr with
  | some e => ((StatusPhase.inProgress, some e), p2.1, p2.2)
  | Option.none =>
  if env.systemCMStatus != OpResult.unchanged then
    match env.rolloutAppErr with
    | some e =>
      ((StatusPhase.inProgress, some e), p2.1, p2.2 ++ [Effect.rollout "system-app"])
    | Option.none =>
      match env.rolloutSidekiqErr with
      | some e =>
        ((StatusPhase.inProgress, some e), p2.1,
          p2.2 ++ [Effect.rollout "system-app", Effect.rollout "system-sidekiq"])
      | Option.none =>
        (goodRes, p2.1,
          p2.2 ++ [Effect.rollout "system-app", Effect.rollout "system-sidekiq"])
  else (goodRes, p2.1, p2.2)

/-- `threescale.Reconciler.reconcileRouteEditRole`. -/
def reconcileRouteEditRole (env : Env) : Result :=
  match env.roleCreateErr with
  | some e => (StatusPhase.failed, some (wrapErr "failed reconciling edit routes role: " e))
  | Option.none =>
  match env.roleBindingCreateErr with
  | some e =>
    (StatusPhase.failed, some (wrapErr "failed reconciling edit routes role binding: " e))
  | Option.none => goodRes

/-- `threescale.Reconciler.reconcileConsoleLink`. -/
def reconcileConsoleLink (env : Env) : Result :=
  match env.consoleLinkErr with
  | some e =>
    (StatusPhase.failed, some (wrapErr "error creating or updating 3scale console link: " e))
  | Option.none => goodRes

/-- Trace entries emitted by one step. -/
def stepTrace (env : Env) : StepId → List TraceId
  | StepId.finalizer =>
    TraceId.step StepId.finalizer ::
      (if env.deletionTimestamp.isSome then teardownTrace env else [])
  | s => [TraceId.step s]

/-- Execution of one step of the 3scale pass over the threaded
(configuration, product status) state. -/
def execStep (env : Env) (st : Config × ProductStatus) :
    StepId → seq.StepExec (Config × ProductStatus) TraceId
  | StepId.finalizer =>
    ⟨resources.reconcileFinalizer env.deletionTimestamp.isSome (teardownResult env), st,
      stepTrace env StepId.finalizer, []⟩
  | StepId.nsOperator => ⟨env.nsOperator, st, stepTrace env StepId.nsOperator, []⟩
  | StepId.nsProduct => ⟨env.nsProduct, st, stepTrace env StepId.nsProduct, []⟩
  | StepId.restoreSecrets =>
    ⟨restoreSystemSecrets env, st, stepTrace env StepId.restoreSecrets, []⟩
  | StepId.pullSecret => ⟨pullSecretRes env, st, stepTrace env StepId.pullSecret, []⟩
  | StepId.subscription => ⟨env.subscription, st, stepTrace env StepId.subscription, []⟩
  | StepId.smtp =>
    let o := reconcileSMTPCredentials env
    ⟨o.1, st, stepTrace env StepId.smtp, o.2.2⟩
  | StepId.externalDatasources =>
    ⟨reconcileExternalDatasources env, st, stepTrace env StepId.externalDatasources, []⟩
  | StepId.blobStorage =>
    ⟨reconcileBlobStorage env, st, stepTrace env StepId.blobStorage, []⟩
  | StepId.components =>
    let o := reconcileComponents env st.1
    ⟨o.1, (o.2.1, st.2), stepTrace env StepId.components, o.2.2⟩
  | StepId.rhssoIntegration =>
    ⟨reconcileRHSSOIntegration env, st, stepTrace env StepId.rhssoIntegration, []⟩
  | StepId.blackboxTargets =>
    ⟨reconcileBlackboxTargets env, st, stepTrace env StepId.blackboxTargets, []⟩
  | StepId.openshiftUsers =>
    let o := reconcileOpenshiftUsers env
    ⟨o.1, st, stepTrace env StepId.openshiftUsers, o.2⟩
  | StepId.oauthSecret => ⟨oauthSecretRes env, st, stepTrace env StepId.oauthSecret, []⟩
  | StepId.masterRoute => ⟨masterRouteRes env, st, stepTrace env StepId.masterRoute, []⟩
  | StepId.oauthClient =>
    ⟨env.oauthClientRec, st, stepTrace env StepId.oauthClient, []⟩
  | StepId.serviceDiscovery =>
    let o := reconcileServiceDiscovery env st.1
    ⟨o.1, (o.2.1, st.2), stepTrace env StepId.serviceDiscovery, o.2.2⟩
  | StepId.backupSecrets =>
    ⟨backupSystemSecrets env, st, stepTrace env StepId.backupSecrets, []⟩
  | StepId.routeEditRole =>
    ⟨reconcileRouteEditRole env, st, stepTrace env StepId.routeEditRole, []⟩
  | StepId.alerts => ⟨env.alerts, st, stepTrace env StepId.alerts, []⟩
  | StepId.consoleLink =>
    ⟨reconcileConsoleLink env, st, stepTrace env StepId.consoleLink, []⟩

/-- The ordered step list of `threescale.Reconciler.Reconcile`: the SMTP,
external datasource and blob storage steps only run when the Installation
carries no deletion marker. -/
def stepsList (env : Env) : List StepId :=
  [StepId.finalizer, StepId.nsOperator, StepId.nsProduct, StepId.restoreSecrets,
   StepId.pullSecret, StepId.subscription] ++
  (if env.deletionTimestamp.isSome then []
   else [StepId.smtp, StepId.externalDatasources, StepId.blobStorage]) ++
  [StepId.components, StepId.rhssoIntegration, StepId.blackboxTargets,
   StepId.openshiftUsers, StepId.oauthSecret, StepId.masterRoute, StepId.oauthClient,
   StepId.serviceDiscovery, StepId.backupSecrets, StepId.routeEditRole,
   StepId.alerts, StepId.consoleLink]

/-- The `(phase, error)` pair of one step (independent of the threaded
state, see `execStep_res`). -/
def stepResult (env : Env) (s : StepId) : Result :=
  (execStep env (env.cfg, ProductStatus.mk "" "" "") s).res

/-- Code after the last step (`Reconcile` lines 310-316): populate the
product status from the configuration. -/
def reconcileTail (st : Config × ProductStatus) :
    Result × (Config × ProductStatus) × List Effect :=
  (goodRes, (st.1, productFromCfg st.1), [])

/-- `threescale.Reconciler.Reconcile`: one full reconciliation pass. -/
def Reconcile (env : Env) (product : ProductStatus) :
    seq.Out (Config × ProductStatus) TraceId :=
  seq.run (execStep env) reconcileTail (stepsList env) (env.cfg, product) [] []

theorem reconcileComponents_res (env : Env) (c1 c2 : Config) :
    (reconcileComponents env c1).1 = (reconcileComponents env c2).1 := by
  unfold reconcileComponents componentsRouteCheck
  repeat' split
  all_goals rfl

theorem reconcileServiceDiscovery_res (env : Env) (c1 c2 : Config) :
    (reconcileServiceDiscovery env c1).1 = (reconcileServiceDiscovery env c2).1 := by
  unfold reconcileServiceDiscovery
  repeat' split
  all_goals rfl

theorem execStep_res (env : Env) (st : Config × ProductStatus) (s : StepId) :
    (execStep env st s).res = stepResult env s := by
  cases s
  case components =>
    exact reconcileComponents_res env st.1 env.cfg
  case serviceDiscovery =>
    exact reconcileServiceDiscovery_res env st.1 env.cfg
  all_goals rfl

theorem execStep_tr (env : Env) (st : Config × ProductStatus) (s : StepId) :
    (execStep env st s).tr = stepTrace env s := by
  cases s <;> rfl

theorem execStep_keeps_product (env : Env) (st : Config × ProductStatus) (s : StepId) :
    (execStep env st s).st.2 = st.2 := by
  cases s <;> rfl

theorem reconcileTail_res (st : Config × ProductStatus) :
    (reconcileTail st).1 = goodRes := rfl

theorem reconcileTail_post (st : Config × ProductStatus) :
    (reconcileTail st).2.1.2 = productFromCfg (reconcileTail st).2.1.1 := rfl

end threescale

namespace threescale

open integreatly

theorem not_any_eq_decide {α : Type} (l : List α) (p : α → Bool) :
    (!l.any p) = decide (∀ x ∈ l, p x = false) := by
  cases h : l.any p
  · have hall : ∀ x ∈ l, p x = false := by
      intro x hx
      cases hpx : p x
      · rfl
      · exact absurd (List.any_eq_true.mpr ⟨x, hx, hpx⟩) (by simp [h])
    have hd : decide (∀ x ∈ l, p x = false) = true := by
      simp only [decide_eq_true_eq]
      exact hall
    simp [hd]
  · obtain ⟨x, hx, hpx⟩ := List.any_eq_true.mp h
    have : ¬ (∀ x ∈ l, p x = false) := fun hall => by simp [hall x hx] at hpx
    simp [this]

theorem addedLoop_eq_filter (tsUsers : List User) :
    ∀ (l acc : List KeycloakAPIUser),
      addedLoop tsUsers acc l = acc ++ l.filter (fun k => !tsContainsKc tsUsers k) := by
  intro l
  induction l with
  | nil => intro acc; simp [addedLoop]
  | cons k rest ih =>
    intro acc
    cases h : tsContainsKc tsUsers k
    · simp [addedLoop, h, List.filter_cons, ih]
    · simp [addedLoop, h, List.filter_cons, ih]

theorem deletedLoop_eq_filter (kcUsers : List KeycloakAPIUser) :
    ∀ (l acc : List User),
      deletedLoop kcUsers acc l = acc ++ l.filter (fun t => !kcContainsTs kcUsers t) := by
  intro l
  induction l with
  | nil => intro acc; simp [deletedLoop]
  | cons t rest ih =>
    intro acc
    cases h : kcContainsTs kcUsers t
    · simp [deletedLoop, h, List.filter_cons, ih]
    · simp [deletedLoop, h, List.filter_cons, ih]

end threescale

/-- C8: for every pair of lists (kcUsers, tsUsers), `getUserDiff` returns
exactly the keycloak users whose username is case-insensitively equal to
no 3scale user's username (in input order) as `added`, and the 3scale
users whose username is case-insensitively equal to no keycloak user's
username (in input order) as `deleted`. -/
theorem C8_getUserDiff (kcUsers : List integreatly.KeycloakAPIUser)
    (tsUsers : List integreatly.User) :
    threescale.getUserDiff kcUsers tsUsers =
      (kcUsers.filter (fun k =>
          decide (∀ t ∈ tsUsers,
            threescale.eqFold t.userDetails.username k.userName = false)),
       tsUsers.filter (fun t =>
          decide (∀ k ∈ kcUsers,
            threescale.eqFold k.userName t.userDetails.username = false))) := by
  unfold threescale.getUserDiff
  rw [threescale.addedLoop_eq_filter, threescale.deletedLoop_eq_filter]
  simp only [Prod.mk.injEq]
  constructor
  · rw [List.nil_append]
    apply List.filter_congr
    intro k _
    rw [threescale.tsContainsKc, threescale.not_any_eq_decide]
  · rw [List.nil_append]
    apply List.filter_congr
    intro t _
    rw [threescale.kcContainsTs, threescale.not_any_eq_decide]

namespace threescale

open integreatly

/-- The seven (credential key, system-smtp key) pairs
`reconcileSMTPCredentials` compares, in source order. -/
def smtpFieldPairs : List (String × String) :=
  [("host", "address"), ("authentication", "authentication"), ("domain", "domain"),
   ("openssl.verify.mode", "openssl.verify.mode"), ("password", "password"),
   ("port", "port"), ("username", "username")]

/-- Some SMTP credential field differs from the stored one. -/
def smtpDiffers (cred d : SecretData) : Bool :=
  smtpFieldPairs.any (fun pq => lookupD cred pq.1 != lookupD d pq.2)

/-- The sequence of `syncField` blocks of `reconcileSMTPCredentials`, as a
chain over the pair list. -/
def syncChain (cred : SecretData) :
    List (String × String) → SecretData × Bool → SecretData × Bool
  | [], s => s
  | pq :: rest, s => syncChain cred rest (syncField cred pq.1 pq.2 s)

theorem syncField_lookup_same (cred d : SecretData) (u : Bool) (ck dk : String) :
    lookupD (syncField cred ck dk (d, u)).1 dk = lookupD cred ck := by
  cases h : (lookupD cred ck != lookupD d dk)
  · simp only [bne_eq_false_iff_eq] at h
    simp [syncField, h]
  · simp [syncField, h, lookupD_setKey_same]

theorem syncField_lookup_ne (cred d : SecretData) (u : Bool) (ck dk k : String)
    (h : k ≠ dk) :
    lookupD (syncField cred ck dk (d, u)).1 k = lookupD d k := by
  cases hb : (lookupD cred ck != lookupD d dk)
  · simp [syncField, hb]
  · simp [syncField, hb, lookupD_setKey_ne _ _ _ _ h]

theorem syncField_snd (cred d : SecretData) (u : Bool) (ck dk : String) :
    (syncField cred ck dk (d, u)).2 = (u || (lookupD cred ck != lookupD d dk)) := by
  cases hb : (lookupD cred ck != lookupD d dk)
  · simp [syncField, hb]
  · simp [syncField, hb]

theorem any_congr {α : Type} (l : List α) (p q : α → Bool)
    (h : ∀ a ∈ l, p a = q a) : l.any p = l.any q := by
  induction l with
  | nil => rfl
  | cons a rest ih =>
    simp only [List.any_cons]
    rw [h a (by simp), ih (fun b hb => h b (by simp [hb]))]

theorem syncChain_spec (cred : SecretData) :
    ∀ (pairs : List (String × String)) (d : SecretData) (u : Bool),
      pairs.Pairwise (fun a b => a.2 ≠ b.2) →
      (syncChain cred pairs (d, u)).2
          = (u || pairs.any (fun pq => lookupD cred pq.1 != lookupD d pq.2))
        ∧ (∀ pq ∈ pairs,
            lookupD (syncChain cred pairs (d, u)).1 pq.2 = lookupD cred pq.1)
        ∧ (∀ k, (∀ pq ∈ pairs, k ≠ pq.2) →
            lookupD (syncChain cred pairs (d, u)).1 k = lookupD d k) := by
  intro pairs
  induction pairs with
  | nil =>
    intro d u _
    exact ⟨by simp [syncChain], by simp, fun k _ => rfl⟩
  | cons pq rest ih =>
    intro d u hpw
    have hpwr : rest.Pairwise (fun a b => a.2 ≠ b.2) := (List.pairwise_cons.mp hpw).2
    have hhead : ∀ b ∈ rest, pq.2 ≠ b.2 := (List.pairwise_cons.mp hpw).1
    have hch : syncChain cred (pq :: rest) (d, u)
        = syncChain cred rest
            ((syncField cred pq.1 pq.2 (d, u)).1, (syncField cred pq.1 pq.2 (d, u)).2) := by
      simp [syncChain]
    have ihs := ih (syncField cred pq.1 pq.2 (d, u)).1 (syncField cred pq.1 pq.2 (d, u)).2 hpwr
    have hpres : ∀ b ∈ rest,
        lookupD (syncField cred pq.1 pq.2 (d, u)).1 b.2 = lookupD d b.2 :=
      fun b hb => syncField_lookup_ne cred d u pq.1 pq.2 b.2 (Ne.symm (hhead b hb))
    refine ⟨?_, ?_, ?_⟩
    · rw [hch, ihs.1, syncField_snd]
      have hany : rest.any
            (fun b => lookupD cred b.1 != lookupD (syncField cred pq.1 pq.2 (d, u)).1 b.2)
          = rest.any (fun b => lookupD cred b.1 != lookupD d b.2) := by
        apply any_congr
        intro b hb
        rw [hpres b hb]
      rw [hany, List.any_cons, Bool.or_assoc]
    · intro b hb
      rw [hch]
      rcases List.mem_cons.mp hb with hb1 | hb2
      · subst hb1
        rw [ihs.2.2 b.2 (fun c hc => hhead c hc), syncField_lookup_same]
      · exact ihs.2.1 b hb2
    · intro k hk
      rw [hch, ihs.2.2 k (fun c hc => hk c (by simp [hc])),
        syncField_lookup_ne cred d u pq.1 pq.2 k (hk pq (by simp))]

/-- A fully benign environment: no deletion marker, every call succeeds,
all collaborator resources are ready, no users to synchronise, recorded
versions and host already match the recomputed ones. -/
def envOk : Env where
  deletionTimestamp := Option.none
  cfg := { host := "https://3scale-admin.apps.example.net",
           productVersion := version3Scale, operatorVersion := operatorVersion3Scale }
  removeProductNs := goodRes
  removeOperatorNs := goodRes
  removeOauthClientErr := Option.none
  deleteConsoleLinkErr := Option.none
  nsOperator := goodRes
  nsProduct := goodRes
  restoreSeedErr := Option.none
  restoreMasterErr := Option.none
  pullSecretErr := Option.none
  subscription := goodRes
  smtpCredSec := Except.ok []
  systemSmtpData := []
  smtpCreateErr := Option.none
  backendRedisReq := Except.ok ⟨CROPhase.complete, "backend-sec", "ns"⟩
  systemRedisReq := Except.ok ⟨CROPhase.complete, "system-sec", "ns"⟩
  postgresReq := Except.ok ⟨CROPhase.complete, "postgres-sec", "ns"⟩
  backendAlerts := goodRes
  cpuAlertsErr := Option.none
  backendCredGet := Except.ok []
  backendSecretCreateErr := Option.none
  systemAlerts := goodRes
  systemCredGet := Except.ok []
  systemSecretCreateErr := Option.none
  postgresAlerts := goodRes
  postgresCredGet := Except.ok []
  postgresSecretCreateErr := Option.none
  blobReq := Except.ok ⟨CROPhase.complete, "blob-sec", "ns"⟩
  fssBlobGet := Except.ok ⟨CROPhase.complete, "blob-sec", "ns"⟩
  fssCredGet := Except.ok []
  s3CreateErr := Option.none
  apimCreateErr := Option.none
  deployStarting := []
  deployStopped := []
  deployReady := ["system-app"]
  providerRoutes := Except.ok [⟨"3scale-admin.apps.example.net"⟩]
  componentsWriteErr := Option.none
  nsRoutes := Except.ok [⟨"r1"⟩, ⟨"r2"⟩, ⟨"r3"⟩, ⟨"r4"⟩, ⟨"r5"⟩, ⟨"r6"⟩]
  sidekiqPods := []
  execResult := (Option.none, "", "")
  rhssoCfg := Except.ok ⟨"rhsso", "openshift", "https://sso.apps.example.net"⟩
  kcClientCreateErr := Option.none
  oauthSecretGet := Except.ok [("3scale", "oauth-secret")]
  systemSeedGet := Except.ok [("ADMIN_USER", "admin"), ("ADMIN_ACCESS_TOKEN", "token")]
  getAuthProviderErr := Option.none
  addAuthProviderResp := (Option.none, 201)
  monCfgErr := Option.none
  bbAdminErr := Option.none
  developerRoutes := Except.ok [⟨"3scale.apps.example.net"⟩]
  bbDevErr := Option.none
  bbMasterRoutes := Except.ok [⟨"master.apps.example.net"⟩]
  bbMasterErr := Option.none
  masterRoutes := Except.ok [⟨"master.apps.example.net"⟩]
  kcUsers := Except.ok []
  tsUsers := Except.ok []
  addUserResp := fun _ => (Option.none, 201)
  deleteUserResp := fun _ => (Option.none, 200)
  kcUserUpdateErr := fun _ => Option.none
  adminGroup := Except.ok []
  tsUsers2 := Except.ok []
  installType := "managed"
  setAdminResp := fun _ => (Option.none, 200)
  oauthClientRec := goodRes
  systemCMErr := Option.none
  systemCMStatus := OpResult.unchanged
  rolloutAppErr := Option.none
  rolloutSidekiqErr := Option.none
  backupSeedErr := Option.none
  backupMasterErr := Option.none
  roleCreateErr := Option.none
  roleBindingCreateErr := Option.none
  alerts := goodRes
  consoleLinkErr := Option.none

theorem reconcileSMTP_parts (env : Env) :
    (reconcileSMTPCredentials env).2.1
        = (syncChain (smtpCredData env) smtpFieldPairs (env.systemSmtpData, false)).1
      ∧ (reconcileSMTPCredentials env).2.2
        = (if (syncChain (smtpCredData env) smtpFieldPairs (env.systemSmtpData, false)).2
           then [Effect.rollout "system-app", Effect.rollout "system-sidekiq"]
           else []) := by
  cases h : env.smtpCreateErr <;>
    simp only [reconcileSMTPCredentials, smtpFieldPairs, syncChain, h] <;>
    exact ⟨trivial, trivial⟩

end threescale

/-- C7: if any SMTP credential field (host, authentication, domain,
openssl.verify.mode, password, port, username) read from the incoming
credentials secret differs from the corresponding field stored in the
3scale system-smtp secret, `reconcileSMTPCredentials` stores the incoming
values in the system-smtp secret and triggers rollouts of the system-app
and system-sidekiq deployments; if all fields are equal, no rollout is
triggered on that pass. -/
theorem C7_smtp_rollout (env : threescale.Env) :
    (threescale.smtpDiffers (threescale.smtpCredData env) env.systemSmtpData = true →
      integreatly.Effect.rollout "system-app" ∈ (threescale.reconcileSMTPCredentials env).2.2 ∧
      integreatly.Effect.rollout "system-sidekiq" ∈ (threescale.reconcileSMTPCredentials env).2.2 ∧
      ∀ pq ∈ threescale.smtpFieldPairs,
        integreatly.lookupD (threescale.reconcileSMTPCredentials env).2.1 pq.2
          = integreatly.lookupD (threescale.smtpCredData env) pq.1) ∧
    (threescale.smtpDiffers (threescale.smtpCredData env) env.systemSmtpData = false →
      (threescale.reconcileSMTPCredentials env).2.2 = []) := by
  have hpw : threescale.smtpFieldPairs.Pairwise (fun a b => a.2 ≠ b.2) := by
    decide
  have hspec := threescale.syncChain_spec (threescale.smtpCredData env)
    threescale.smtpFieldPairs env.systemSmtpData false hpw
  have hparts := threescale.reconcileSMTP_parts env
  have hflag : (threescale.syncChain (threescale.smtpCredData env)
      threescale.smtpFieldPairs (env.systemSmtpData, false)).2
      = threescale.smtpDiffers (threescale.smtpCredData env) env.systemSmtpData := by
    rw [hspec.1, Bool.false_or]
    rfl
  constructor
  · intro hdiff
    have heff : (threescale.reconcileSMTPCredentials env).2.2
        = [integreatly.Effect.rollout "system-app",
           integreatly.Effect.rollout "system-sidekiq"] := by
      rw [hparts.2, hflag, hdiff]
      rfl
    refine ⟨by rw [heff]; simp, by rw [heff]; simp, ?_⟩
    intro pq hpq
    rw [hparts.1]
    exact hspec.2.1 pq hpq
  · intro heq
    rw [hparts.2, hflag, heq]
    rfl

/-- Witness for C7 at concrete secrets: differing credentials trigger the
rollouts and the incoming host is stored; equal credentials trigger
none. -/
theorem C7_smtp_rollout_witness :
    (threescale.smtpDiffers [("host", "smtp.example.net")] [] = true ∧
      integreatly.Effect.rollout "system-app" ∈
        (threescale.reconcileSMTPCredentials
          { threescale.envOk with
              smtpCredSec := Except.ok [("host", "smtp.example.net")],
              systemSmtpData := [] }).2.2) ∧
    (threescale.smtpDiffers [] [] = false ∧
      (threescale.reconcileSMTPCredentials
          { threescale.envOk with smtpCredSec := Except.ok [], systemSmtpData := [] }).2.2
        = []) := by
  constructor
  · refine ⟨by decide, ?_⟩
    exact ((C7_smtp_rollout
      { threescale.envOk with
          smtpCredSec := Except.ok [("host", "smtp.example.net")],
          systemSmtpData := [] }).1 (by decide)).1
  · refine ⟨by decide, ?_⟩
    exact (C7_smtp_rollout
      { threescale.envOk with smtpCredSec := Except.ok [], systemSmtpData := [] }).2
      (by decide)

namespace threescale

open integreatly

/-- The environment of the C6 counterexample: the backend redis request
succeeds and its CR is not complete, but the system redis request fails. -/
def envC6 : Env :=
  { envOk with
      backendRedisReq := Except.ok ⟨CROPhase.inProgress, "backend-sec", "ns"⟩,
      systemRedisReq := Except.error ⟨ErrKind.other, "boom"⟩ }

/-- The environment of the C9 theorem: every call succeeds; the blackbox
step still observes the system-master route, but by the later, distinct
List call at the oauth-client step the route list has become empty. -/
def envC9 : Env :=
  { envOk with masterRoutes := Except.ok [] }

/-- The panic modelling is not vacuous: with an empty system-master route
list at the blackbox step itself, the step yields the halting panic
marker (the Go process crashes on the nil route). -/
theorem reconcileBlackboxTargets_nil_master :
    reconcileBlackboxTargets { envOk with bbMasterRoutes := Except.ok [] }
      = panicRes "invalid memory address or nil pointer dereference" := by
  decide

/-- The effect is not a `DeleteUser` call for the given admin user. -/
def sparesUser (admin : String) : Effect → Bool
  | Effect.deleteUser u => u.userDetails.username != admin
  | _ => true

/-- The effect is not a `SetUserAsAdmin` call for the given admin user. -/
def promotesOnly (admin : String) : Effect → Bool
  | Effect.setAdmin u => u.userDetails.username != admin
  | _ => true

theorem addUsersLoop_spares (admin : String) (resp : KeycloakAPIUser → GoErr × Nat) :
    ∀ l, ((addUsersLoop resp l).2.all (sparesUser admin)) = true := by
  intro l
  induction l with
  | nil => rfl
  | cons k rest ih =>
    simp only [addUsersLoop]
    split
    · simp [sparesUser]
    · simp [sparesUser, ih]

theorem deleteUsersLoop_spares (admin : String) (resp : User → GoErr × Nat) :
    ∀ l, ((deleteUsersLoop admin resp l).2.all (sparesUser admin)) = true := by
  intro l
  induction l with
  | nil => rfl
  | cons u rest ih =>
    simp only [deleteUsersLoop]
    split
    · split
      · simp_all [sparesUser]
      · simp_all [sparesUser]
    · exact ih

theorem syncLoop_spares (admin other : String) (w : Bool) (grp : List String)
    (resp : User → GoErr × Nat) :
    ∀ l, ((syncLoop other w grp resp l).2.all (sparesUser admin)) = true := by
  intro l
  induction l with
  | nil => rfl
  | cons u rest ih =>
    simp only [syncLoop]
    split
    · exact ih
    · split
      · split
        · simp [sparesUser]
        · simp [sparesUser, ih]
      · exact ih

theorem syncLoop_promotes (admin : String) (w : Bool) (grp : List String)
    (resp : User → GoErr × Nat) :
    ∀ l, ((syncLoop admin w grp resp l).2.all (promotesOnly admin)) = true := by
  intro l
  induction l with
  | nil => rfl
  | cons u rest ih =>
    simp only [syncLoop]
    split
    · exact ih
    · split
      · split
        · simp_all [promotesOnly]
        · simp_all [promotesOnly]
      · exact ih

theorem usersSyncPart_spares (env : Env) (grp : List String) (admin : String)
    (effs : List Effect) :
    ((usersSyncPart env grp admin effs).2.all (sparesUser admin))
      = (effs.all (sparesUser admin)) := by
  unfold usersSyncPart syncOpenshiftAdminMembership
  cases htu : env.tsUsers2 with
  | error e => simp
  | ok newTs =>
    cases hs : (syncLoop admin (env.installType == installationTypeWorkshop) grp
        env.setAdminResp newTs).1 <;>
      simp [hs, List.all_append, syncLoop_spares]

theorem reconcileOpenshiftUsers_spares (env : Env) :
    ((reconcileOpenshiftUsers env).2.all (sparesUser (adminUserName env))) = true := by
  simp only [reconcileOpenshiftUsers]
  repeat' split
  all_goals
    simp_all [List.all_append, addUsersLoop_spares, deleteUsersLoop_spares,
      usersSyncPart_spares, adminUserName]

end threescale

/-- C10: user synchronisation never removes or re-roles the 3scale system
admin account: no `DeleteUser` call of `reconcileOpenshiftUsers` targets
the user whose username equals the system-seed `ADMIN_USER`, and no
`SetUserAsAdmin` call of `syncOpenshiftAdminMembership` targets that
user. -/
theorem C10_admin_preserved :
    (∀ env : threescale.Env,
      ((threescale.reconcileOpenshiftUsers env).2.all
        (threescale.sparesUser (threescale.adminUserName env))) = true) ∧
    (∀ (grp : List String) (users : List integreatly.User) (admin : String)
        (w : Bool) (resp : integreatly.User → integreatly.GoErr × Nat),
      ((threescale.syncOpenshiftAdminMembership grp users admin w resp).2.all
        (threescale.promotesOnly admin)) = true) :=
  ⟨threescale.reconcileOpenshiftUsers_spares,
   fun grp users admin w resp =>
     threescale.syncLoop_promotes admin w grp resp users⟩

/-- C9: the 3scale Reconcile entry point can return phase Failed together
with a nil error: when the system-master route List call at the
oauth-client step succeeds but yields no matching route,
`getThreescaleRoute` returns (nil, nil) and `Reconcile` returns
`(PhaseFailed, nil)`.  In the exhibited environment the earlier, distinct
List call inside `reconcileBlackboxTargets` still observes the route, so
that step completes without the nil-route panic and the pass genuinely
reaches the check. -/
theorem C9_failed_with_nil_error :
    threescale.getThreescaleRoute (Except.ok ([] : List integreatly.Route)) Option.none
        = Except.ok Option.none ∧
    threescale.reconcileBlackboxTargets threescale.envC9 = integreatly.goodRes ∧
    (threescale.Reconcile threescale.envC9 ⟨"", "", ""⟩).res
        = (integreatly.StatusPhase.failed, Option.none) := by
  exact ⟨rfl, by decide, by decide⟩

/-- C6 counterexample: in `reconcileExternalDatasources` the backend redis
request succeeds and its custom resource is not complete, yet the step
returns `(Failed, err)` because the system redis request (which the code
issues before the backend redis phase check) fails. -/
theorem C6_counterexample :
    threescale.envC6.backendRedisReq
        = Except.ok ⟨threescale.CROPhase.inProgress, "backend-sec", "ns"⟩ ∧
    threescale.reconcileExternalDatasources threescale.envC6
      ≠ (integreatly.StatusPhase.awaitingComponents, Option.none) := by
  exact ⟨rfl, by decide⟩

/-- C6 (amended): a cloud-resource provisioning custom resource (blob
storage, backend redis, or system redis) whose status phase is not
complete while its own reconcile request succeeded makes the step return
`(AwaitingComponents, nil)` - provided the operations the step performs
before that phase check (for the redis resources: the sibling provisioning
requests, the redis alert reconciliation and, for the system redis, the
backend redis completion and its connection-secret handling) succeed. -/
theorem C6_awaiting_components :
    (∀ (env : threescale.Env) (st : threescale.CRStatus),
      env.blobReq = Except.ok st →
      st.phase ≠ threescale.CROPhase.complete →
      threescale.reconcileBlobStorage env
        = (integreatly.StatusPhase.awaitingComponents, Option.none)) ∧
    (∀ (env : threescale.Env) (bst sst pst : threescale.CRStatus),
      env.backendRedisReq = Except.ok bst →
      env.systemRedisReq = Except.ok sst →
      env.postgresReq = Except.ok pst →
      env.backendAlerts = integreatly.goodRes →
      env.cpuAlertsErr = Option.none →
      bst.phase ≠ threescale.CROPhase.complete →
      threescale.reconcileExternalDatasources env
        = (integreatly.StatusPhase.awaitingComponents, Option.none)) ∧
    (∀ (env : threescale.Env) (bst sst pst : threescale.CRStatus)
        (bd : integreatly.SecretData),
      env.backendRedisReq = Except.ok bst →
      env.systemRedisReq = Except.ok sst →
      env.postgresReq = Except.ok pst →
      env.backendAlerts = integreatly.goodRes →
      env.cpuAlertsErr = Option.none →
      bst.phase = threescale.CROPhase.complete →
      env.backendCredGet = Except.ok bd →
      env.backendSecretCreateErr = Option.none →
      env.systemAlerts = integreatly.goodRes →
      sst.phase ≠ threescale.CROPhase.complete →
      threescale.reconcileExternalDatasources env
        = (integreatly.StatusPhase.awaitingComponents, Option.none)) := by
  refine ⟨?_, ?_, ?_⟩
  · intro env st h1 h2
    have hb : (st.phase != threescale.CROPhase.complete) = true := by simp [h2]
    simp [threescale.reconcileBlobStorage, h1, hb]
  · intro env bst sst pst h1 h2 h3 h4 h5 h6
    have hb : (bst.phase != threescale.CROPhase.complete) = true := by simp [h6]
    simp [threescale.reconcileExternalDatasources, h1, h2, h3, h4, h5, hb,
      integreatly.goodRes]
  · intro env bst sst pst bd h1 h2 h3 h4 h5 h6 h7 h8 h9 h10
    have hb : (bst.phase != threescale.CROPhase.complete) = false := by simp [h6]
    have hs : (sst.phase != threescale.CROPhase.complete) = true := by simp [h10]
    simp [threescale.reconcileExternalDatasources, h1, h2, h3, h4, h5, h7, h8, h9,
      hb, hs, integreatly.goodRes]

/-- Witness for C6 (amended) at concrete environments: each of the three
conditionals applied to an environment realising its hypotheses. -/
theorem C6_awaiting_components_witness :
    (threescale.reconcileBlobStorage
        { threescale.envOk with
            blobReq := Except.ok ⟨threescale.CROPhase.inProgress, "blob-sec", "ns"⟩ }
      = (integreatly.StatusPhase.awaitingComponents, Option.none)) ∧
    (threescale.reconcileExternalDatasources
        { threescale.envOk with
            backendRedisReq := Except.ok ⟨threescale.CROPhase.inProgress, "b", "ns"⟩ }
      = (integreatly.StatusPhase.awaitingComponents, Option.none)) ∧
    (threescale.reconcileExternalDatasources
        { threescale.envOk with
            systemRedisReq := Except.ok ⟨threescale.CROPhase.inProgress, "s", "ns"⟩ }
      = (integreatly.StatusPhase.awaitingComponents, Option.none)) := by
  refine ⟨?_, ?_, ?_⟩
  · exact C6_awaiting_components.1
      { threescale.envOk with
          blobReq := Except.ok ⟨threescale.CROPhase.inProgress, "blob-sec", "ns"⟩ }
      ⟨threescale.CROPhase.inProgress, "blob-sec", "ns"⟩ rfl (by decide)
  · exact C6_awaiting_components.2.1
      { threescale.envOk with
          backendRedisReq := Except.ok ⟨threescale.CROPhase.inProgress, "b", "ns"⟩ }
      ⟨threescale.CROPhase.inProgress, "b", "ns"⟩
      ⟨threescale.CROPhase.complete, "system-sec", "ns"⟩
      ⟨threescale.CROPhase.complete, "postgres-sec", "ns"⟩
      rfl rfl rfl rfl rfl (by decide)
  · exact C6_awaiting_components.2.2
      { threescale.envOk with
          systemRedisReq := Except.ok ⟨threescale.CROPhase.inProgress, "s", "ns"⟩ }
      ⟨threescale.CROPhase.complete, "backend-sec", "ns"⟩
      ⟨threescale.CROPhase.inProgress, "s", "ns"⟩
      ⟨threescale.CROPhase.complete, "postgres-sec", "ns"⟩
      [] rfl rfl rfl rfl rfl rfl rfl rfl rfl (by decide)

namespace seq

theorem mem_post_not_mem_pre {α : Type} {pre post : List α} {s t : α}
    (hnd : (pre ++ s :: post).Nodup) (ht : t ∈ post) : t ∉ pre ++ [s] := by
  intro hmem
  rcases List.mem_append.mp hmem with h1 | h2
  · have hdisj := (List.nodup_append.mp hnd).2.2
    exact hdisj h1 (List.mem_cons_of_mem s ht)
  · have hts : t = s := by simpa using h2
    subst hts
    have hcons : (t :: post).Nodup := (List.nodup_append.mp hnd).2.1
    exact (List.nodup_cons.mp hcons).1 ht

end seq

namespace grafana

open integreatly

/-- A fully benign Grafana environment: no deletion marker, every call
succeeds, and the recorded host and product version already match the
recomputed ones. -/
def envOk : Env where
  deletionTimestamp := Option.none
  cfg := { host := "https://grafana.apps.example.net",
           productVersion := versionGrafana, operatorVersion := "grafana-operator" }
  removeProductNs := goodRes
  removeOperatorNs := goodRes
  reconcileNs := goodRes
  secretsCreateErr := Option.none
  subscription := goodRes
  componentsCreateErr := Option.none
  routeGet := Except.ok "grafana.apps.example.net"
  writeHostErr := Option.none

/-- A Grafana environment whose subscription step fails. -/
def envFail : Env :=
  { envOk with subscription := (StatusPhase.failed, some ⟨ErrKind.other, "sub boom"⟩) }

/-- Trace entries of forward-install steps (everything except the
finalizer check and the teardown sub-steps). -/
def isForwardTrace : TraceId → Bool
  | TraceId.step StepId.finalizer => false
  | TraceId.step _ => true
  | TraceId.teardown _ => false

theorem stepsList_nodup_g : stepsList.Nodup := by decide

theorem step_not_mem_teardownTrace_g (env : Env) (t : StepId) :
    TraceId.step t ∉ teardownTrace env := by
  intro h
  simp only [teardownTrace] at h
  repeat' split at h
  all_goals simp_all

theorem step_mem_stepTrace_g (env : Env) (i t : StepId) :
    TraceId.step t ∈ stepTrace env i → t = i := by
  cases i
  case finalizer =>
    intro h
    simp only [stepTrace, List.mem_cons] at h
    rcases h with h1 | h2
    · simpa using h1
    · exfalso
      split at h2
      · exact step_not_mem_teardownTrace_g env t h2
      · simp at h2
  all_goals (intro h; simpa [stepTrace] using h)

theorem teardownTrace_nonforward_g (env : Env) :
    ((teardownTrace env).all (fun tr => !isForwardTrace tr)) = true := by
  unfold teardownTrace
  repeat' split
  all_goals simp [isForwardTrace]

theorem stepTrace_finalizer_nonforward_g (env : Env)
    (h : env.deletionTimestamp.isSome = true) :
    ((stepTrace env StepId.finalizer).all (fun tr => !isForwardTrace tr)) = true := by
  have hst : stepTrace env StepId.finalizer
      = TraceId.step StepId.finalizer :: teardownTrace env := by
    simp [stepTrace, h]
  rw [hst, List.all_cons, teardownTrace_nonforward_g]
  rfl

end grafana

namespace threescale

open integreatly

/-- A 3scale environment whose subscription step fails. -/
def envFail : Env :=
  { envOk with subscription := (StatusPhase.failed, some ⟨ErrKind.other, "sub boom"⟩) }

/-- Trace entries of forward-install steps (everything except the
finalizer check and the teardown sub-steps). -/
def isForwardTrace : TraceId → Bool
  | TraceId.step StepId.finalizer => false
  | TraceId.step _ => true
  | TraceId.teardown _ => false

theorem stepsList_nodup (env : Env) : (stepsList env).Nodup := by
  unfold stepsList
  cases h : env.deletionTimestamp.isSome <;> simp [h]

theorem step_not_mem_teardownTrace (env : Env) (t : StepId) :
    TraceId.step t ∉ teardownTrace env := by
  intro h
  simp only [teardownTrace] at h
  repeat' split at h
  all_goals simp_all

theorem step_mem_stepTrace (env : Env) (i t : StepId) :
    TraceId.step t ∈ stepTrace env i → t = i := by
  cases i
  case finalizer =>
    intro h
    simp only [stepTrace, List.mem_cons] at h
    rcases h with h1 | h2
    · simpa using h1
    · exfalso
      split at h2
      · exact step_not_mem_teardownTrace env t h2
      · simp at h2
  all_goals (intro h; simpa [stepTrace] using h)

theorem teardownTrace_nonforward (env : Env) :
    ((teardownTrace env).all (fun tr => !isForwardTrace tr)) = true := by
  unfold teardownTrace
  repeat' split
  all_goals simp [isForwardTrace]

theorem stepTrace_finalizer_nonforward (env : Env)
    (h : env.deletionTimestamp.isSome = true) :
    ((stepTrace env StepId.finalizer).all (fun tr => !isForwardTrace tr)) = true := by
  have hst : stepTrace env StepId.finalizer
      = TraceId.step StepId.finalizer :: teardownTrace env := by
    simp [stepTrace, h]
  rw [hst, List.all_cons, teardownTrace_nonforward]
  rfl

end threescale

/-- C1: for every reconciliation pass of a product Reconcile entry point
(Grafana and 3scale) and every step in its ordered step list, if that step
returns a non-nil error or a phase other than Completed (i.e. anything but
`(Completed, nil)`), Reconcile returns that `(phase, error)` pair and no
subsequent step of the list appears in the execution trace of the pass. -/
theorem C1_strict_short_circuit :
    (∀ (env : grafana.Env) (p : integreatly.ProductStatus)
        (pre post : List grafana.StepId) (s : grafana.StepId),
      grafana.stepsList = pre ++ s :: post →
      (∀ t ∈ pre, grafana.stepResult env t = integreatly.goodRes) →
      grafana.stepResult env s ≠ integreatly.goodRes →
      (grafana.Reconcile env p).res = grafana.stepResult env s ∧
      ∀ t ∈ post, grafana.TraceId.step t ∉ (grafana.Reconcile env p).trace) ∧
    (∀ (env : threescale.Env) (p : integreatly.ProductStatus)
        (pre post : List threescale.StepId) (s : threescale.StepId),
      threescale.stepsList env = pre ++ s :: post →
      (∀ t ∈ pre, threescale.stepResult env t = integreatly.goodRes) →
      threescale.stepResult env s ≠ integreatly.goodRes →
      (threescale.Reconcile env p).res = threescale.stepResult env s ∧
      ∀ t ∈ post, threescale.TraceId.step t ∉ (threescale.Reconcile env p).trace) := by
  constructor
  · intro env p pre post s hsteps hpre hbad
    have hs : integreatly.halts (grafana.stepResult env s) = true :=
      (integreatly.halts_eq_true_iff _).mpr hbad
    have hrun := seq.run_shortCircuit (grafana.execStep env) grafana.reconcileTail
      (grafana.stepResult env) (grafana.stepTrace env)
      (grafana.execStep_res_g env) (grafana.execStep_tr_g env) s post hs pre
      (env.cfg, p) [] []
      (fun t ht => (integreatly.halts_eq_false_iff _).mpr (hpre t ht))
    have hre : grafana.Reconcile env p
        = seq.run (grafana.execStep env) grafana.reconcileTail (pre ++ s :: post)
            (env.cfg, p) [] [] := by
      rw [← hsteps]; rfl
    constructor
    · rw [hre]; exact hrun.1
    · intro t ht hmem
      rw [hre, hrun.2, List.nil_append] at hmem
      obtain ⟨i, hi, hig⟩ := (seq.mem_traceOf (grafana.stepTrace env) _ _).mp hmem
      have hti := grafana.step_mem_stepTrace_g env i t hig
      subst hti
      exact seq.mem_post_not_mem_pre (hsteps ▸ grafana.stepsList_nodup_g) ht hi
  · intro env p pre post s hsteps hpre hbad
    have hs : integreatly.halts (threescale.stepResult env s) = true :=
      (integreatly.halts_eq_true_iff _).mpr hbad
    have hrun := seq.run_shortCircuit (threescale.execStep env) threescale.reconcileTail
      (threescale.stepResult env) (threescale.stepTrace env)
      (threescale.execStep_res env) (threescale.execStep_tr env) s post hs pre
      (env.cfg, p) [] []
      (fun t ht => (integreatly.halts_eq_false_iff _).mpr (hpre t ht))
    have hre : threescale.Reconcile env p
        = seq.run (threescale.execStep env) threescale.reconcileTail (pre ++ s :: post)
            (env.cfg, p) [] [] := by
      rw [← hsteps]; rfl
    constructor
    · rw [hre]; exact hrun.1
    · intro t ht hmem
      rw [hre, hrun.2, List.nil_append] at hmem
      obtain ⟨i, hi, hig⟩ := (seq.mem_traceOf (threescale.stepTrace env) _ _).mp hmem
      have hti := threescale.step_mem_stepTrace env i t hig
      subst hti
      exact seq.mem_post_not_mem_pre (hsteps ▸ threescale.stepsList_nodup env) ht hi

/-- Witness for C1: in a Grafana pass whose subscription step fails, the
pass returns the subscription step's result and the host step never
appears in the trace. -/
theorem C1_strict_short_circuit_witness :
    grafana.stepResult grafana.envFail grafana.StepId.subscription
        ≠ integreatly.goodRes ∧
    (grafana.Reconcile grafana.envFail ⟨"", "", ""⟩).res
        = grafana.stepResult grafana.envFail grafana.StepId.subscription ∧
    grafana.TraceId.step grafana.StepId.host
        ∉ (grafana.Reconcile grafana.envFail ⟨"", "", ""⟩).trace := by
  have h := C1_strict_short_circuit.1 grafana.envFail ⟨"", "", ""⟩
    [grafana.StepId.finalizer, grafana.StepId.ns, grafana.StepId.secrets]
    [grafana.StepId.components, grafana.StepId.host] grafana.StepId.subscription
    rfl (by decide) (by decide)
  exact ⟨by decide, h.1, h.2 grafana.StepId.host (by decide)⟩

/-- C2: whenever the owning Installation carries a deletion marker, a
reconciliation pass of either reconciler executes only the finalizer check
and teardown steps: no forward-install step appears in the trace. -/
theorem C2_finalizer_precedence :
    (∀ (env : grafana.Env) (p : integreatly.ProductStatus),
      env.deletionTimestamp.isSome = true →
      ((grafana.Reconcile env p).trace.all
        (fun tr => !grafana.isForwardTrace tr)) = true) ∧
    (∀ (env : threescale.Env) (p : integreatly.ProductStatus),
      env.deletionTimestamp.isSome = true →
      ((threescale.Reconcile env p).trace.all
        (fun tr => !threescale.isForwardTrace tr)) = true) := by
  constructor
  · intro env p h
    have hres : (grafana.execStep env (env.cfg, p) grafana.StepId.finalizer).res
        = resources.reconcileFinalizer true (grafana.teardownResult env) := by
      show resources.reconcileFinalizer env.deletionTimestamp.isSome
        (grafana.teardownResult env) = _
      rw [h]
    have hh : integreatly.halts
        (grafana.execStep env (env.cfg, p) grafana.StepId.finalizer).res = true := by
      rw [hres]; exact resources.reconcileFinalizer_marker_halts _
    have hre : grafana.Reconcile env p
        = ⟨(grafana.execStep env (env.cfg, p) grafana.StepId.finalizer).res,
           (grafana.execStep env (env.cfg, p) grafana.StepId.finalizer).st,
           [] ++ (grafana.execStep env (env.cfg, p) grafana.StepId.finalizer).tr,
           [] ++ (grafana.execStep env (env.cfg, p) grafana.StepId.finalizer).effs⟩ :=
      seq.run_cons_halt (grafana.execStep env) grafana.reconcileTail
        [grafana.StepId.ns, grafana.StepId.secrets, grafana.StepId.subscription,
         grafana.StepId.components, grafana.StepId.host] [] [] hh
    rw [hre]
    simp only [List.nil_append, grafana.execStep_tr_g]
    exact grafana.stepTrace_finalizer_nonforward_g env h
  · intro env p h
    have hres : (threescale.execStep env (env.cfg, p) threescale.StepId.finalizer).res
        = resources.reconcileFinalizer true (threescale.teardownResult env) := by
      show resources.reconcileFinalizer env.deletionTimestamp.isSome
        (threescale.teardownResult env) = _
      rw [h]
    have hh : integreatly.halts
        (threescale.execStep env (env.cfg, p) threescale.StepId.finalizer).res = true := by
      rw [hres]; exact resources.reconcileFinalizer_marker_halts _
    have hre : threescale.Reconcile env p
        = ⟨(threescale.execStep env (env.cfg, p) threescale.StepId.finalizer).res,
           (threescale.execStep env (env.cfg, p) threescale.StepId.finalizer).st,
           [] ++ (threescale.execStep env (env.cfg, p) threescale.StepId.finalizer).tr,
           [] ++ (threescale.execStep env (env.cfg, p) threescale.StepId.finalizer).effs⟩ :=
      seq.run_cons_halt (threescale.execStep env) threescale.reconcileTail
        ([threescale.StepId.nsOperator, threescale.StepId.nsProduct,
          threescale.StepId.restoreSecrets, threescale.StepId.pullSecret,
          threescale.StepId.subscription] ++
         (if env.deletionTimestamp.isSome then []
          else [threescale.StepId.smtp, threescale.StepId.externalDatasources,
                threescale.StepId.blobStorage]) ++
         [threescale.StepId.components, threescale.StepId.rhssoIntegration,
          threescale.StepId.blackboxTargets, threescale.StepId.openshiftUsers,
          threescale.StepId.oauthSecret, threescale.StepId.masterRoute,
          threescale.StepId.oauthClient, threescale.StepId.serviceDiscovery,
          threescale.StepId.backupSecrets, threescale.StepId.routeEditRole,
          threescale.StepId.alerts, threescale.StepId.consoleLink]) [] [] hh
    rw [hre]
    simp only [List.nil_append, threescale.execStep_tr]
    exact threescale.stepTrace_finalizer_nonforward env h

/-- Witness for C2: passes over environments carrying a deletion marker
execute no forward-install step. -/
theorem C2_finalizer_precedence_witness :
    (((grafana.Reconcile
        { grafana.envOk with deletionTimestamp := some "now" } ⟨"", "", ""⟩).trace.all
      (fun tr => !grafana.isForwardTrace tr)) = true) ∧
    (((threescale.Reconcile
        { threescale.envOk with deletionTimestamp := some "now" } ⟨"", "", ""⟩).trace.all
      (fun tr => !threescale.isForwardTrace tr)) = true) :=
  ⟨C2_finalizer_precedence.1 { grafana.envOk with deletionTimestamp := some "now" }
    ⟨"", "", ""⟩ rfl,
   C2_finalizer_precedence.2 { threescale.envOk with deletionTimestamp := some "now" }
    ⟨"", "", ""⟩ rfl⟩

/-- C3: if every step of a reconciliation pass returns `(Completed, nil)`,
the Reconcile entry point returns `(Completed, nil)`. -/
theorem C3_all_completed :
    (∀ (env : grafana.Env) (p : integreatly.ProductStatus),
      (∀ s ∈ grafana.stepsList, grafana.stepResult env s = integreatly.goodRes) →
      (grafana.Reconcile env p).res = integreatly.goodRes) ∧
    (∀ (env : threescale.Env) (p : integreatly.ProductStatus),
      (∀ s ∈ threescale.stepsList env, threescale.stepResult env s = integreatly.goodRes) →
      (threescale.Reconcile env p).res = integreatly.goodRes) := by
  constructor
  · intro env p hall
    exact seq.run_all_good (grafana.execStep env) grafana.reconcileTail
      (grafana.stepResult env) (grafana.execStep_res_g env) grafana.reconcileTail_res_g
      grafana.stepsList (env.cfg, p) [] []
      (fun i hi => (integreatly.halts_eq_false_iff _).mpr (hall i hi))
  · intro env p hall
    exact seq.run_all_good (threescale.execStep env) threescale.reconcileTail
      (threescale.stepResult env) (threescale.execStep_res env)
      threescale.reconcileTail_res (threescale.stepsList env) (env.cfg, p) [] []
      (fun i hi => (integreatly.halts_eq_false_iff _).mpr (hall i hi))

/-- Witness for C3: fully benign environments complete both passes. -/
theorem C3_all_completed_witness :
    (grafana.Reconcile grafana.envOk ⟨"", "", ""⟩).res = integreatly.goodRes ∧
    (threescale.Reconcile threescale.envOk ⟨"", "", ""⟩).res = integreatly.goodRes :=
  ⟨C3_all_completed.1 grafana.envOk ⟨"", "", ""⟩ (by decide),
   C3_all_completed.2 threescale.envOk ⟨"", "", ""⟩ (by decide)⟩

/-- C4: the per-product status record is written only by a pass that
reports `(Completed, nil)` (it then mirrors the final configuration); a
pass that halts early with a non-Completed phase or an error leaves the
product status unchanged. -/
theorem C4_product_status_frame :
    (∀ (env : grafana.Env) (p : integreatly.ProductStatus),
      ((grafana.Reconcile env p).res ≠ integreatly.goodRes →
        (grafana.Reconcile env p).st.2 = p) ∧
      ((grafana.Reconcile env p).res = integreatly.goodRes →
        (grafana.Reconcile env p).st.2
          = integreatly.productFromCfg (grafana.Reconcile env p).st.1)) ∧
    (∀ (env : threescale.Env) (p : integreatly.ProductStatus),
      ((threescale.Reconcile env p).res ≠ integreatly.goodRes →
        (threescale.Reconcile env p).st.2 = p) ∧
      ((threescale.Reconcile env p).res = integreatly.goodRes →
        (threescale.Reconcile env p).st.2
          = integreatly.productFromCfg (threescale.Reconcile env p).st.1)) := by
  constructor
  · intro env p
    constructor
    · intro hne
      exact seq.run_ne_good_proj (grafana.execStep env) grafana.reconcileTail
        Prod.snd (grafana.execStep_keeps_product_g env) grafana.reconcileTail_res_g
        grafana.stepsList (env.cfg, p) [] [] hne
    · intro hgood
      exact seq.run_good_post (grafana.execStep env) grafana.reconcileTail
        (fun st => st.2 = integreatly.productFromCfg st.1) grafana.reconcileTail_post_g
        grafana.stepsList (env.cfg, p) [] [] hgood
  · intro env p
    constructor
    · intro hne
      exact seq.run_ne_good_proj (threescale.execStep env) threescale.reconcileTail
        Prod.snd (threescale.execStep_keeps_product env) threescale.reconcileTail_res
        (threescale.stepsList env) (env.cfg, p) [] [] hne
    · intro hgood
      exact seq.run_good_post (threescale.execStep env) threescale.reconcileTail
        (fun st => st.2 = integreatly.productFromCfg st.1) threescale.reconcileTail_post
        (threescale.stepsList env) (env.cfg, p) [] [] hgood

/-- Witness for C4: a failing Grafana pass leaves the product status
unchanged; a completing 3scale pass mirrors the final configuration into
it. -/
theorem C4_product_status_frame_witness :
    ((grafana.Reconcile grafana.envFail ⟨"h0", "v0", "o0"⟩).st.2 = ⟨"h0", "v0", "o0"⟩) ∧
    ((threescale.Reconcile threescale.envOk ⟨"", "", ""⟩).st.2
      = integreatly.productFromCfg
          (threescale.Reconcile threescale.envOk ⟨"", "", ""⟩).st.1) :=
  ⟨(C4_product_status_frame.1 grafana.envFail ⟨"h0", "v0", "o0"⟩).1 (by decide),
   (C4_product_status_frame.2 threescale.envOk ⟨"", "", ""⟩).2 (by decide)⟩

namespace grafana

open integreatly

theorem execStep_keeps_pv (env : Env) (st : Config × ProductStatus) (i : StepId) :
    (execStep env st i).st.1.productVersion = st.1.productVersion := by
  cases i
  case host =>
    show (reconcileHost env st.1).2.1.productVersion = st.1.productVersion
    unfold reconcileHost
    cases env.routeGet <;> cases env.writeHostErr <;> rfl
  all_goals rfl

theorem execStep_no_pv_write (env : Env) (st : Config × ProductStatus) (i : StepId) :
    Effect.configWrite WriteTag.productVersion ∉ (execStep env st i).effs := by
  cases i
  case host =>
    show Effect.configWrite WriteTag.productVersion ∉ (reconcileHost env st.1).2.2
    unfold reconcileHost
    cases env.routeGet <;> cases env.writeHostErr <;> simp
  all_goals simp [execStep]

theorem reconcileTail_no_pv_write (st : Config × ProductStatus)
    (h : st.1.productVersion = versionGrafana) :
    Effect.configWrite WriteTag.productVersion ∉ (reconcileTail st).2.2 := by
  unfold reconcileTail
  simp [h]

theorem reconcileHost_writes (env : Env) (cfg : Config) (h : String)
    (hok : env.routeGet = Except.ok h) :
    Effect.configWrite WriteTag.host ∈ (reconcileHost env cfg).2.2 := by
  unfold reconcileHost
  rw [hok]
  cases env.writeHostErr <;> simp

end grafana

namespace threescale

open integreatly

theorem serviceDiscovery_version_writes (env : Env) (cfg : Config) :
    ((Effect.configWrite WriteTag.productVersion
        ∈ (reconcileServiceDiscovery env cfg).2.2)
      ↔ cfg.productVersion ≠ version3Scale) ∧
    ((Effect.configWrite WriteTag.operatorVersion
        ∈ (reconcileServiceDiscovery env cfg).2.2)
      ↔ cfg.operatorVersion ≠ operatorVersion3Scale) := by
  unfold reconcileServiceDiscovery
  by_cases hv : cfg.productVersion = version3Scale <;>
    by_cases ho : cfg.operatorVersion = operatorVersion3Scale <;>
      rcases hoa : getOauthClientSecret env with e | v <;>
        rcases hcm : env.systemCMErr with _ | e2 <;>
          cases hst : env.systemCMStatus <;>
            rcases hra : env.rolloutAppErr with _ | e3 <;>
              rcases hrs : env.rolloutSidekiqErr with _ | e4 <;>
                simp_all

end threescale

/-- C5 counterexample: in a Grafana pass in which the recomputed host
equals the recorded host and the recomputed product version equals the
recorded one, a write to the configuration store still occurs
(`reconcileHost` writes unconditionally). -/
theorem C5_counterexample :
    grafana.envOk.cfg.host = "https://" ++ "grafana.apps.example.net" ∧
    grafana.envOk.routeGet = Except.ok "grafana.apps.example.net" ∧
    grafana.envOk.cfg.productVersion = grafana.versionGrafana ∧
    (grafana.Reconcile grafana.envOk ⟨"", "", ""⟩).res = integreatly.goodRes ∧
    integreatly.Effect.configWrite integreatly.WriteTag.host
      ∈ (grafana.Reconcile grafana.envOk ⟨"", "", ""⟩).effs := by
  refine ⟨rfl, rfl, rfl, by decide, by decide⟩

/-- C5 (amended): the recomputed product and operator versions are written
to the configuration store only when they differ from the recorded values
(for the 3scale service discovery step, exactly when they differ); the
discovered host, however, is written back unconditionally whenever host
reconciliation retrieves the route, even when the recomputed host equals
the recorded one. -/
theorem C5_amended_config_writes :
    (∀ (env : grafana.Env) (p : integreatly.ProductStatus),
      env.cfg.productVersion = grafana.versionGrafana →
      integreatly.Effect.configWrite integreatly.WriteTag.productVersion
        ∉ (grafana.Reconcile env p).effs) ∧
    (∀ (env : grafana.Env) (cfg : integreatly.Config) (h : String),
      env.routeGet = Except.ok h →
      integreatly.Effect.configWrite integreatly.WriteTag.host
        ∈ (grafana.reconcileHost env cfg).2.2) ∧
    (∀ (env : threescale.Env) (cfg : integreatly.Config),
      (integreatly.Effect.configWrite integreatly.WriteTag.productVersion
          ∈ (threescale.reconcileServiceDiscovery env cfg).2.2)
        ↔ cfg.productVersion ≠ threescale.version3Scale) ∧
    (∀ (env : threescale.Env) (cfg : integreatly.Config),
      (integreatly.Effect.configWrite integreatly.WriteTag.operatorVersion
          ∈ (threescale.reconcileServiceDiscovery env cfg).2.2)
        ↔ cfg.operatorVersion ≠ threescale.operatorVersion3Scale) := by
  refine ⟨?_, ?_, ?_, ?_⟩
  · intro env p hv
    exact seq.run_effect_absent (grafana.execStep env) grafana.reconcileTail
      (fun st => st.1.productVersion = grafana.versionGrafana)
      (integreatly.Effect.configWrite integreatly.WriteTag.productVersion)
      (fun st i hP => by
        show (grafana.execStep env st i).st.1.productVersion = grafana.versionGrafana
        rw [grafana.execStep_keeps_pv]
        exact hP)
      (grafana.execStep_no_pv_write env)
      (fun st hP => grafana.reconcileTail_no_pv_write st hP)
      grafana.stepsList (env.cfg, p) [] [] hv (by simp)
  · intro env cfg h hok
    exact grafana.reconcileHost_writes env cfg h hok
  · intro env cfg
    exact (threescale.serviceDiscovery_version_writes env cfg).1
  · intro env cfg
    exact (threescale.serviceDiscovery_version_writes env cfg).2

/-- Witness for C5 (amended) at concrete inputs: an unchanged version is
not rewritten, the host is rewritten even when unchanged, and the 3scale
version writes occur exactly on difference. -/
theorem C5_amended_config_writes_witness :
    (integreatly.Effect.configWrite integreatly.WriteTag.productVersion
        ∉ (grafana.Reconcile grafana.envOk ⟨"", "", ""⟩).effs) ∧
    (integreatly.Effect.configWrite integreatly.WriteTag.host
        ∈ (grafana.reconcileHost grafana.envOk grafana.envOk.cfg).2.2) ∧
    ((integreatly.Effect.configWrite integreatly.WriteTag.productVersion
        ∈ (threescale.reconcileServiceDiscovery threescale.envOk
            threescale.envOk.cfg).2.2)
      ↔ threescale.envOk.cfg.productVersion ≠ threescale.version3Scale) :=
  ⟨C5_amended_config_writes.1 grafana.envOk ⟨"", "", ""⟩ rfl,
   C5_amended_config_writes.2.1 grafana.envOk grafana.envOk.cfg
     "grafana.apps.example.net" rfl,
   C5_amended_config_writes.2.2.1 threescale.envOk threescale.envOk.cfg⟩
